import Mathlib

/-!
# Yandex Maps widget glue (`www/yandex_maps/yandex_maps.js`)

A shallow embedding of the marker derivation and feed refresh code of
`yandex_maps.js`, and theorems about it.

The script is JavaScript, so the embedding starts with the fragment of the
language the script relies on: values, truthiness, string conversion,
`parseFloat`, property access and the one regular expression of `stripEntry`.

Modelling decisions, all of them about the language and not about the script:

* a string is a sequence of UTF-16 code units; one `Char` stands for one code
  unit (exact for text of the basic multilingual plane);
* a number is NaN, an infinity or an exact decimal `(-1)^neg * mant * 10^exp`.
  Reading a literal turns it into zero or into an infinity exactly when IEEE
  rounding does; a finite non-zero value keeps the literal's exact value;
* objects are JSON-like records (ordered key/value lists); properties inherited
  from the built-in prototypes (methods such as `toString`) are not modelled,
  apart from `length` of arrays and strings;
* an uncaught exception is an `Except.error`; a function that has changed the
  map entry before it throws returns a `Run`: the state reached and the
  exception;
* `JSON.parse` is a parameter of the functions that call it.
-/

namespace YandexMaps

/-! ## Values -/

/-- A JavaScript number. -/
inductive JSNum where
  | nan
  | inf (neg : Bool)
  | dec (neg : Bool) (mant : Nat) (exp : Int)
  deriving DecidableEq, Repr

/-- A JavaScript value, as far as attributes and feed payloads go. -/
inductive JSValue where
  | undefined
  | null
  | bool (b : Bool)
  | num (n : JSNum)
  | str (s : String)
  | arr (items : List JSValue)
  | obj (fields : List (String × JSValue))
  deriving Repr

/-- The exceptions the script can raise through the language. -/
inductive JSError where
  /-- Property access on `undefined`/`null`, or a call of something that is not a function. -/
  | typeError
  /-- Raised by `JSON.parse`, and by the document query for a text that is not a selector. -/
  | syntaxError
  /-- Not an exception: a loop that never ends. -/
  | diverges
  deriving DecidableEq, Repr

/-- The value of `elem.getAttribute(name)`: the attribute string, or `null`. -/
def attr : Option String → JSValue
  | none => .null
  | some s => .str s

/-- The natural number `n` as a JavaScript number. -/
def JSNum.ofNat (n : Nat) : JSNum := .dec false n 0

/-- Whether a number is `+0`, `-0`. -/
def JSNum.isZero : JSNum → Bool
  | .dec _ mant _ => mant == 0
  | _ => false

/-- ToBoolean, the conversion behind `!!v`, `if (v)` and `v || w`. -/
def toBoolean : JSValue → Bool
  | .undefined => false
  | .null => false
  | .bool b => b
  | .num .nan => false
  | .num n => !n.isZero
  | .str s => !s.toList.isEmpty
  | .arr _ => true
  | .obj _ => true

/-- The expression `a || b`. -/
def jsOr (a b : JSValue) : JSValue := if toBoolean a then a else b

/-! ## Numbers and strings -/

/-- Decimal digits of a natural number. -/
def natDigits (n : Nat) : List Char := Nat.toDigits 10 n

/-- Number::toString for a finite non-zero value with digits `s` (no trailing
zero, `k = s.length`) and value `0.s * 10^n`. -/
def digitsToString (s : List Char) (n : Int) : List Char :=
  let k : Int := s.length
  if k ≤ n ∧ n ≤ 21 then s ++ List.replicate (n - k).toNat '0'
  else if 0 < n ∧ n ≤ 21 then s.take n.toNat ++ '.' :: s.drop n.toNat
  else if -6 < n ∧ n ≤ 0 then '0' :: '.' :: (List.replicate (-n).toNat '0' ++ s)
  else
    let x := n - 1
    let e := 'e' :: (if x < 0 then '-' else '+') :: natDigits x.natAbs
    match s with
    | [] => e
    | [d] => d :: e
    | d :: ds => d :: '.' :: (ds ++ e)

/-- Number::toString. -/
def numToString : JSNum → List Char
  | .nan => "NaN".toList
  | .inf neg => if neg then "-Infinity".toList else "Infinity".toList
  | .dec neg mant exp =>
    if mant = 0 then ['0']
    else
      let ds := natDigits mant
      let z := (ds.reverse.takeWhile (· == '0')).length
      let s := ds.take (ds.length - z)
      let body := digitsToString s ((s.length : Int) + z + exp)
      if neg then '-' :: body else body

mutual
/-- ToString. An array is its elements joined by commas. -/
def toStr : JSValue → List Char
  | .undefined => "undefined".toList
  | .null => "null".toList
  | .bool b => if b then "true".toList else "false".toList
  | .num n => numToString n
  | .str s => s.toList
  | .arr xs => joinStr xs
  | .obj _ => "[object Object]".toList
/-- Array.prototype.join with the default separator: `undefined` and `null`
elements contribute the empty string. -/
def joinStr : List JSValue → List Char
  | [] => []
  | [.undefined] => []
  | [.null] => []
  | [x] => toStr x
  | .undefined :: y :: xs => ',' :: joinStr (y :: xs)
  | .null :: y :: xs => ',' :: joinStr (y :: xs)
  | x :: y :: xs => toStr x ++ ',' :: joinStr (y :: xs)
end

/-- WhiteSpace and LineTerminator code units, as skipped by `parseFloat`. -/
def isWhiteSpace (c : Char) : Bool :=
  let n := c.toNat
  n == 0x09 || n == 0x0A || n == 0x0B || n == 0x0C || n == 0x0D || n == 0x20 ||
  n == 0xA0 || n == 0x1680 || (0x2000 ≤ n && n ≤ 0x200A) || n == 0x2028 ||
  n == 0x2029 || n == 0x202F || n == 0x205F || n == 0x3000 || n == 0xFEFF

/-- A decimal digit. -/
def isDigit (c : Char) : Bool := 48 ≤ c.toNat && c.toNat ≤ 57

/-- The value of a run of decimal digits. -/
def digitsVal (ds : List Char) : Nat := ds.foldl (fun a c => 10 * a + (c.toNat - 48)) 0

/-- If `s` starts with `pre`, what follows it. -/
def dropPrefix? : List Char → List Char → Option (List Char)
  | [], s => some s
  | _ :: _, [] => none
  | p :: ps, c :: cs => if p = c then dropPrefix? ps cs else none

/-- The Number value of the decimal `mant * 10^exp`: zero when it rounds to
zero (at most `2^-1075`), an infinity when it rounds past the largest double
(at least `2^1024 - 2^970`), the exact decimal otherwise. With `d` digits in
`mant` the value lies in `[10^(d-1+exp), 10^(d+exp))`, so the exact comparisons
are only needed for `d + exp < -322` and for `309 ≤ d + exp`. -/
def JSNum.ofDecimal (neg : Bool) (mant : Nat) (exp : Int) : JSNum :=
  let d : Int := (natDigits mant).length
  if mant = 0 then .dec neg 0 0
  else if d + exp < -322 ∧ mant * 2 ^ 1075 ≤ 10 ^ exp.natAbs then .dec neg 0 0
  else if 309 ≤ d + exp ∧ 0 ≤ exp ∧ 2 ^ 1024 - 2 ^ 970 ≤ mant * 10 ^ exp.natAbs then .inf neg
  else if 309 ≤ d + exp ∧ exp < 0 ∧ (2 ^ 1024 - 2 ^ 970) * 10 ^ exp.natAbs ≤ mant then .inf neg
  else .dec neg mant exp

/-- An ExponentPart at the head of `s`: its value and what follows it. -/
def parseExponent (s : List Char) : Option (Int × List Char) :=
  match s with
  | [] => none
  | c :: rest =>
    if c = 'e' ∨ c = 'E' then
      let neg := rest.head? = some '-'
      let rest1 := if rest.head? = some '-' ∨ rest.head? = some '+' then rest.tail else rest
      let ds := rest1.takeWhile isDigit
      if ds = [] then none
      else some (if neg then -(digitsVal ds : Int) else (digitsVal ds : Int), rest1.dropWhile isDigit)
    else none

/-- The longest StrUnsignedDecimalLiteral at the head of `s`, with the sign
`neg` already read: its value and what follows it. -/
def parseUnsigned (neg : Bool) (s : List Char) : Option (JSNum × List Char) :=
  match dropPrefix? "Infinity".toList s with
  | some rest => some (.inf neg, rest)
  | none =>
    let int := s.takeWhile isDigit
    let r1 := s.dropWhile isDigit
    let hasDot := r1.head? = some '.'
    let frac := if hasDot then r1.tail.takeWhile isDigit else []
    let r2 := if hasDot then r1.tail.dropWhile isDigit else r1
    if int = [] ∧ frac = [] then none
    else
      match parseExponent r2 with
      | some (x, r3) => some (JSNum.ofDecimal neg (digitsVal (int ++ frac)) (x - frac.length), r3)
      | none => some (JSNum.ofDecimal neg (digitsVal (int ++ frac)) (-(frac.length : Int)), r2)

/-- The longest StrDecimalLiteral at the head of `s`. -/
def parseSigned (s : List Char) : Option (JSNum × List Char) :=
  if s.head? = some '-' then parseUnsigned true s.tail
  else if s.head? = some '+' then parseUnsigned false s.tail
  else parseUnsigned false s

/-- The global `parseFloat`: the argument is converted to a string, leading
white space is skipped and the longest prefix that is a decimal literal is
read; NaN when there is none. -/
def parseFloat (v : JSValue) : JSNum :=
  match parseSigned ((toStr v).dropWhile isWhiteSpace) with
  | some (n, _) => n
  | none => .nan

/-! ## Property access -/

/-- The index a property key denotes when it is a canonical numeric string. -/
def arrayIndex? (key : List Char) : Option Nat :=
  if key = ['0'] then some 0
  else if key ≠ [] ∧ key.all isDigit = true ∧ key.head? ≠ some '0' then some (digitsVal key)
  else none

/-- The value stored under `key` in a record, `undefined` when there is none. -/
def lookupKey (key : String) : List (String × JSValue) → JSValue
  | [] => .undefined
  | (k, v) :: rest => if k = key then v else lookupKey key rest

/-- The property read `v[key]`. Reading a property of `undefined` or `null`
throws a TypeError; a missing property reads as `undefined`. -/
def getProp (v : JSValue) (key : String) : Except JSError JSValue :=
  match v with
  | .undefined => .error .typeError
  | .null => .error .typeError
  | .bool _ => .ok .undefined
  | .num _ => .ok .undefined
  | .str s =>
    if key = "length" then .ok (.num (.ofNat s.toList.length))
    else
      match (arrayIndex? key.toList).bind (fun i => s.toList[i]?) with
      | some c => .ok (.str (String.mk [c]))
      | none => .ok .undefined
  | .arr xs =>
    if key = "length" then .ok (.num (.ofNat xs.length))
    else
      match (arrayIndex? key.toList).bind (fun i => xs[i]?) with
      | some x => .ok x
      | none => .ok .undefined
  | .obj fields => .ok (lookupKey key fields)

/-! ## The template syntax -/

/-- A line terminator, the one kind of code unit `.` does not match. -/
def isLineTerminator (c : Char) : Bool :=
  c.toNat == 0x0A || c.toNat == 0x0D || c.toNat == 0x2028 || c.toNat == 0x2029

/-- The tail `([\w\W]*)\}\}` of the pattern at the head of `s`. The star is
greedy, so the group captures the longest `t` with `s = t ++ "}}" ++ u`. -/
def captureUntilClose : List Char → Option (List Char)
  | [] => none
  | c :: cs =>
    match captureUntilClose cs with
    | some t => some (c :: t)
    | none => if c = '}' ∧ cs.head? = some '}' then some [] else none

/-- The group `(?:entry.)` at the head of `s`: what follows it. The dot
stands for any one code unit that is not a line terminator. -/
def afterEntryGroup (s : List Char) : Option (List Char) :=
  match dropPrefix? "entry".toList s with
  | some (c :: rest) => if isLineTerminator c then none else some rest
  | _ => none

/-- The pattern `\{\{(?:entry.)?([\w\W]*)\}\}` matched at the head of `s`:
the text of capture group 1. The optional group is tried first, and given up
when the rest of the pattern cannot match after it. -/
def matchHere (s : List Char) : Option (List Char) :=
  match dropPrefix? "\x7b\x7b".toList s with
  | none => none
  | some rest =>
    match (afterEntryGroup rest).bind captureUntilClose with
    | some t => some t
    | none => captureUntilClose rest

/-- The search of `entry.match(/\{\{(?:entry.)?([\w\W]*)\}\}/)`: the match
at the leftmost position that has one. -/
def regexMatch : List Char → Option (List Char)
  | [] => matchHere []
  | c :: cs =>
    match matchHere (c :: cs) with
    | some t => some t
    | none => regexMatch cs

/-- The function `stripEntry`. On a match the result array has the two entries
`[whole, group 1]`, so the test `match.length == 2` holds and group 1 is
returned. A value that is not a string has no `match` method: TypeError. -/
def stripEntry (entry : JSValue) : Except JSError String :=
  match entry with
  | .str s =>
    match regexMatch s.toList with
    | some t => .ok (String.mk t)
    | none => .ok s
  | _ => .error .typeError

/-- The pieces of `s` between the dots, kept as lists of code units. -/
def splitDotChars : List Char → List (List Char)
  | [] => [[]]
  | c :: cs =>
    if c = '.' then [] :: splitDotChars cs
    else
      match splitDotChars cs with
      | [] => [[c]]
      | p :: ps => (c :: p) :: ps

/-- The call `s.split('.')`. -/
def splitDot (s : String) : List String := (splitDotChars s.toList).map String.mk

/-- The function `getNamespacedObject`: start at `data[0] || data`, read one
property per part, and return `obj || {}`. -/
def getNamespacedObject (parts : List String) (data : JSValue) : Except JSError JSValue := do
  let first ← getProp data "0"
  let obj ← parts.foldlM getProp (jsOr first data)
  pure (jsOr obj (.obj []))

/-- The function `getValue`. -/
def getValue (valueHolder : JSValue) (dataItem : JSValue) : Except JSError JSValue := do
  let strippedValueHolder ← stripEntry valueHolder
  getNamespacedObject (splitDot strippedValueHolder) dataItem

/-! ## Map configuration records -/

/-- One entry of `maps`, as `findMaps` builds it: every field is the value of
`getAttribute` (a string, or `null` for a missing attribute), except
`dataCoordinates`, which is the result of `JSON.parse`, and `mapDOMNode`, the
element itself (an opaque handle). -/
structure MapConfig where
  mapDOMNode : Nat
  dataEvent : Option String
  dataRpa : Option String
  dataZoom : Option String
  dataCenterAddress : Option String
  dataCenterLat : Option String
  dataCenterLong : Option String
  dataCenterAuto : Option String
  dataMapType : Option String
  dataGeoObjectType : Option String
  dataLat : Option String
  dataLong : Option String
  dataRadius : Option String
  dataCoordinates : JSValue
  dataBalloon : Option String
  dataBalloonHeader : Option String
  dataBalloonBody : Option String
  dataBalloonFooter : Option String
  dataHint : Option String
  dataPreset : Option String
  dataDraggable : Option String

/-- The test `!!parseFloat(v)`. -/
def parsesTruthy (v : JSValue) : Bool := toBoolean (.num (parseFloat v))

/-! ## Marker derivation

`dataItem` is `undefined` when the caller passes no feed item. -/

/-- The function `markerLatLong`. Falling off the end returns `undefined`. -/
def markerLatLong (mapObject : MapConfig) (dataItem : JSValue) : Except JSError JSValue :=
  if parsesTruthy (attr mapObject.dataLong) && parsesTruthy (attr mapObject.dataLat) then
    .ok (.arr [attr mapObject.dataLat, attr mapObject.dataLong])
  else if toBoolean (attr mapObject.dataLong) && toBoolean (attr mapObject.dataLat) then do
    let latObj ← getValue (attr mapObject.dataLat) dataItem
    let lngObj ← getValue (attr mapObject.dataLong) dataItem
    pure (.arr [latObj, lngObj])
  else .ok .undefined

/-- The function `markerRadius`. -/
def markerRadius (mapObject : MapConfig) (dataItem : JSValue) : Except JSError JSValue :=
  if parsesTruthy (attr mapObject.dataRadius) then .ok (attr mapObject.dataRadius)
  else if toBoolean (attr mapObject.dataRadius) then getValue (attr mapObject.dataRadius) dataItem
  else .ok .undefined

/-- The function `markerCoordinatesArray`. -/
def markerCoordinatesArray (mapObject : MapConfig) (dataItem : JSValue) : Except JSError JSValue :=
  if parsesTruthy mapObject.dataCoordinates then .ok mapObject.dataCoordinates
  else if toBoolean mapObject.dataCoordinates then getValue mapObject.dataCoordinates dataItem
  else .ok .undefined

/-- The function `markerGeometry`. The three helper calls run first, whatever
the geometry type; the `switch` has no default case. -/
def markerGeometry (mapObject : MapConfig) (dataItem : JSValue) : Except JSError JSValue := do
  let latlong ← markerLatLong mapObject dataItem
  let radius ← markerRadius mapObject dataItem
  let coordinatesArray ← markerCoordinatesArray mapObject dataItem
  let type := attr mapObject.dataGeoObjectType
  if mapObject.dataGeoObjectType = some "Point" then
    pure (.obj [("type", type), ("coordinates", latlong)])
  else if mapObject.dataGeoObjectType = some "Circle" then
    pure (.obj [("type", type), ("coordinates", latlong), ("radius", radius)])
  else if mapObject.dataGeoObjectType = some "Polygon" ∨
      mapObject.dataGeoObjectType = some "Rectangle" ∨
      mapObject.dataGeoObjectType = some "LineString" then
    pure (.obj [("type", type), ("coordinates", coordinatesArray)])
  else pure (.obj [("type", type)])

/-- The function `markerOptions`. -/
def markerOptions (mapObject : MapConfig) : JSValue :=
  .obj [("preset", attr mapObject.dataPreset), ("draggable", attr mapObject.dataDraggable)]

/-- The condition shared by both branches of `markerBalloon`. -/
def balloonRequested (mapObject : MapConfig) : Bool :=
  toBoolean (attr mapObject.dataBalloon) && toBoolean (attr mapObject.dataBalloonHeader) &&
  toBoolean (attr mapObject.dataBalloonBody) && toBoolean (attr mapObject.dataBalloonFooter)

/-- The function `markerBalloon`. -/
def markerBalloon (mapObject : MapConfig) (dataItem : JSValue) : Except JSError JSValue :=
  if balloonRequested mapObject && toBoolean dataItem then do
    let header ← getValue (attr mapObject.dataBalloonHeader) dataItem
    let body ← getValue (attr mapObject.dataBalloonBody) dataItem
    let footer ← getValue (attr mapObject.dataBalloonFooter) dataItem
    pure (.obj [("balloonContentHeader", header), ("balloonContentBody", body),
      ("balloonContentFooter", footer)])
  else if balloonRequested mapObject && !toBoolean dataItem then
    .ok (.obj [("balloonContentHeader", attr mapObject.dataBalloonHeader),
      ("balloonContentBody", attr mapObject.dataBalloonBody),
      ("balloonContentFooter", attr mapObject.dataBalloonFooter)])
  else .ok (.obj [])

/-- The function `markerHint`. -/
def markerHint (mapObject : MapConfig) (dataItem : JSValue) : Except JSError JSValue :=
  if toBoolean (attr mapObject.dataHint) && toBoolean dataItem then
    getValue (attr mapObject.dataHint) dataItem
  else if toBoolean (attr mapObject.dataHint) && !toBoolean dataItem then
    .ok (attr mapObject.dataHint)
  else .ok .null

/-- Assignment `o.key = v` on a record value. -/
def setField (o : JSValue) (key : String) (v : JSValue) : JSValue :=
  match o with
  | .obj fields =>
    .obj (if fields.any (fun kv => kv.1 == key)
      then fields.map (fun kv => if kv.1 = key then (kv.1, v) else kv)
      else fields ++ [(key, v)])
  | other => other

/-- The function `markerProperties`. -/
def markerProperties (mapObject : MapConfig) (dataItem : JSValue) : Except JSError JSValue := do
  let properties ← markerBalloon mapObject dataItem
  let hint ← markerHint mapObject dataItem
  pure (setField properties "hintContent" hint)

/-! ## Array-like values -/

/-- The value of one digit in the given radix. -/
def radixDigit? (radix : Nat) (c : Char) : Option Nat :=
  let n := c.toNat
  let v := if 48 ≤ n ∧ n ≤ 57 then n - 48
    else if 97 ≤ n ∧ n ≤ 102 then n - 87
    else if 65 ≤ n ∧ n ≤ 70 then n - 55
    else radix
  if v < radix then some v else none

/-- The value of a run of digits in the given radix. -/
def radixVal? (radix : Nat) (ds : List Char) : Option Nat :=
  if ds = [] then none
  else ds.foldl (fun acc c => acc.bind (fun a => (radixDigit? radix c).map (fun v => radix * a + v))) (some 0)

/-- A hexadecimal, octal or binary integer literal. -/
def radixLiteral? (s : List Char) : Option Nat :=
  match s with
  | z :: x :: ds =>
    if z = '0' then
      if x = 'x' ∨ x = 'X' then radixVal? 16 ds
      else if x = 'o' ∨ x = 'O' then radixVal? 8 ds
      else if x = 'b' ∨ x = 'B' then radixVal? 2 ds
      else none
    else none
  | _ => none

/-- StringToNumber: the whole string, white space at both ends aside, has to
be a numeric literal; the empty string is 0. -/
def stringToNumber (s : List Char) : JSNum :=
  let t := ((s.dropWhile isWhiteSpace).reverse.dropWhile isWhiteSpace).reverse
  if t = [] then .dec false 0 0
  else
    match radixLiteral? t with
    | some n => JSNum.ofDecimal false n 0
    | none =>
      match parseSigned t with
      | some (n, []) => n
      | _ => .nan

/-- ToNumber. -/
def toNumber : JSValue → JSNum
  | .undefined => .nan
  | .null => .dec false 0 0
  | .bool b => if b then .ofNat 1 else .dec false 0 0
  | .num n => n
  | .str s => stringToNumber s.toList
  | .arr xs => stringToNumber (toStr (.arr xs))
  | .obj _ => .nan

/-- How often the body of `for (i = 0; i < len; i++)` runs; `none` when the
loop never ends (the counter stops growing at `2^53`). -/
def loopCount : JSNum → Option Nat
  | .nan => some 0
  | .inf neg => if neg then some 0 else none
  | .dec neg mant exp =>
    let n := if 0 ≤ exp then mant * 10 ^ exp.natAbs
      else (mant + 10 ^ exp.natAbs - 1) / 10 ^ exp.natAbs
    if neg then some 0
    else if n ≤ 9007199254740992 then some n
    else none

/-- The function `isObject`: `typeof e == 'object'`, which holds of records,
of arrays and of `null`. -/
def isObject : JSValue → Bool
  | .null => true
  | .arr _ => true
  | .obj _ => true
  | _ => false

/-- The function `filter`. On an array the loop visits the elements in
order; on any other value it reads `length` and the numeric properties. -/
def filter (arr : JSValue) (predicate : JSValue → Bool) : Except JSError (List JSValue) :=
  match arr with
  | .arr xs => .ok (xs.filter predicate)
  | other =>
    match getProp other "length" with
    | .error e => .error e
    | .ok len =>
      match loopCount (toNumber len) with
      | none => .error .diverges
      | some n =>
        .ok (((List.range n).map (fun i =>
          match getProp other (String.mk (natDigits i)) with
          | .ok x => x
          | .error _ => .undefined)).filter predicate)

/-! ## The widget and the mutable part of a map entry

The map widget (`ymaps.Map`) and its markers (`ymaps.GeoObject`) belong to the
mapping library. The widget is modelled by the list of objects in its
`geoObjects` collection: `add` appends, `remove` takes the object out. Every
`new ymaps.GeoObject(marker)` is a fresh object, told apart by `id`. -/

/-- The argument of `new ymaps.GeoObject(...)`. -/
structure Marker where
  geometry : JSValue
  properties : JSValue
  options : JSValue

/-- A widget marker. -/
structure GeoObject where
  id : Nat
  marker : Marker

/-- The mutable part of a map entry once `createMap` has run: the contents of
`map_object.geoObjects`, the fields `marker` and `markers` (`none` while
unset), and the identity of the next object to be created. -/
structure MapState where
  geoObjects : List GeoObject
  marker : Option GeoObject
  markers : Option (List GeoObject)
  nextId : Nat

/-- The state right after `createMap`: an empty widget, no marker fields. -/
def MapState.fresh : MapState := ⟨[], none, none, 0⟩

/-- The three assignments that open `createMarker` and the loop body of
`createMarkers`. -/
def deriveMarker (mapObject : MapConfig) (dataItem : JSValue) : Except JSError Marker := do
  let geometry ← markerGeometry mapObject dataItem
  let properties ← markerProperties mapObject dataItem
  pure ⟨geometry, properties, markerOptions mapObject⟩

/-- The function `createMarker`. -/
def createMarker (mapObject : MapConfig) (st : MapState) : Except JSError MapState := do
  let marker ← deriveMarker mapObject .undefined
  if toBoolean marker.geometry then
    let created : GeoObject := ⟨st.nextId, marker⟩
    pure { st with
      marker := some created
      geoObjects := st.geoObjects ++ [created]
      nextId := st.nextId + 1 }
  else pure st

/-- A run of a function that mutates the map entry: the state it leaves
behind and the exception that ended it, if any. -/
structure Run where
  state : MapState
  thrown : Option JSError

/-- The `for` loop of `createMarkers` over the filtered list. The push goes to
the array `createMarkers` stored in `mapObject.markers` before the loop. -/
def createMarkersLoop (mapObject : MapConfig) : List JSValue → MapState → Run
  | [], st => ⟨st, none⟩
  | dataItem :: rest, st =>
    match deriveMarker mapObject dataItem with
    | .error e => ⟨st, some e⟩
    | .ok marker =>
      if toBoolean marker.geometry then
        let markerObject : GeoObject := ⟨st.nextId, marker⟩
        createMarkersLoop mapObject rest { st with
          markers := some (st.markers.getD [] ++ [markerObject])
          geoObjects := st.geoObjects ++ [markerObject]
          nextId := st.nextId + 1 }
      else createMarkersLoop mapObject rest st

/-- The statement `dataRpa.forEach(function(d){ data = data[d]; })`: each
element of the parsed path, converted to a property key, is read in turn. -/
def descendPath (path : List JSValue) (data : JSValue) : Except JSError JSValue :=
  path.foldlM (fun data d => getProp data (String.mk (toStr d))) data

/-- The list `createMarkers` loops over: `JSON.parse(mapObject.dataRpa)`,
`forEach` over the parsed path with `data = data[d]`, then `filter`.
`JSON_parse` is the built-in `JSON.parse`. -/
def feedItems (JSON_parse : String → Except JSError JSValue) (mapObject : MapConfig)
    (data : JSValue) : Except JSError (List JSValue) := do
  let dataRpa ← JSON_parse (String.mk (toStr (attr mapObject.dataRpa)))
  let path ← match dataRpa with
    | .arr ds => pure ds
    | _ => throw JSError.typeError
  let data ← descendPath path data
  filter data isObject

/-- The function `createMarkers`. -/
def createMarkers (JSON_parse : String → Except JSError JSValue) (mapObject : MapConfig)
    (st : MapState) (data : JSValue) : Run :=
  let st1 : MapState := { st with markers := some [] }
  match feedItems JSON_parse mapObject data with
  | .error e => ⟨st1, some e⟩
  | .ok items => createMarkersLoop mapObject items st1

/-- The call `geoObjects.remove(object)`. -/
def removeGeoObject (collection : List GeoObject) (object : GeoObject) : List GeoObject :=
  collection.filter (fun g => g.id != object.id)

/-- The function `clearMarkers`. -/
def clearMarkers (st : MapState) : MapState :=
  match st.markers with
  | none => st
  | some markers =>
    { st with
      geoObjects := markers.foldl removeGeoObject st.geoObjects
      markers := some [] }

/-- The handler `initalizeMaps` registers for the feed event of a map. -/
def onFeedEvent (JSON_parse : String → Except JSError JSValue) (mapObject : MapConfig)
    (st : MapState) (data : JSValue) : Run :=
  createMarkers JSON_parse mapObject (clearMarkers st) data

/-- The states a feed-driven map entry goes through: the one `createMap`
leaves, and the one each feed event leaves, completed or not. -/
inductive Reachable (JSON_parse : String → Except JSError JSValue) (mapObject : MapConfig) :
    MapState → Prop where
  | fresh : Reachable JSON_parse mapObject MapState.fresh
  | feed (st : MapState) (data : JSValue) :
      Reachable JSON_parse mapObject st →
      Reachable JSON_parse mapObject (onFeedEvent JSON_parse mapObject st data).state

/-! ## Vocabulary of the specification -/

/-- A templated field value: the path between the delimiters. -/
def template (path : String) : String := "\x7b\x7b" ++ path ++ "\x7d\x7d"

/-- The path of a template once the optional namespace token in front of it is
taken off: `entry` and one more code unit that is not a line terminator. -/
def dropNamespace (path : List Char) : List Char :=
  match afterEntryGroup path with
  | some rest => rest
  | none => path

/-- The value found by descending from `v` along the segments of a path, one
property per segment. There is none when the descent would have to read a
property of `undefined` or `null`; a missing last segment reads as `undefined`. -/
def valueAt : List String → JSValue → Option JSValue
  | [], v => some v
  | segment :: rest, v =>
    match getProp v segment with
    | .ok w => valueAt rest w
    | .error _ => none

/-- Whether a record has a field of the given name. -/
def hasField (v : JSValue) (key : String) : Bool :=
  match v with
  | .obj fields => fields.any (fun kv => kv.1 == key)
  | _ => false

/-- The widget markers created one after the other from the given marker
descriptions, the first of them with identity `n`. -/
def numbered : Nat → List Marker → List GeoObject
  | _, [] => []
  | n, m :: ms => ⟨n, m⟩ :: numbered (n + 1) ms


/-! ## Sample inputs -/

/-- The entry `findMaps` builds for an element that carries none of the
attributes: every `getAttribute` is `null`, and `JSON.parse('[' + null + ']')`
is the array `[null]`. -/
def MapConfig.blank : MapConfig :=
  { mapDOMNode := 0, dataEvent := none, dataRpa := none, dataZoom := none,
    dataCenterAddress := none, dataCenterLat := none, dataCenterLong := none,
    dataCenterAuto := none, dataMapType := none, dataGeoObjectType := none,
    dataLat := none, dataLong := none, dataRadius := none,
    dataCoordinates := .arr [.null], dataBalloon := none, dataBalloonHeader := none,
    dataBalloonBody := none, dataBalloonFooter := none, dataHint := none,
    dataPreset := none, dataDraggable := none }

/-- The behaviour of `JSON.parse` on the one path text the samples use,
`["items"]`; any other text counts as malformed here. -/
def parseItemsPath (text : String) : Except JSError JSValue :=
  if text = "[\"items\"]" then .ok (.arr [.str "items"]) else .error .syntaxError

/-- The properties and options every sample marker gets: no balloon, no hint,
no preset, not draggable. -/
def plainMarker (geometry : JSValue) : Marker :=
  ⟨geometry, .obj [("hintContent", .null)], .obj [("preset", .null), ("draggable", .null)]⟩

/-- A feed-capable entry with `data-geo-object-type="Star"` and
`data-coordinates="1"`. -/
def starConfig : MapConfig :=
  { MapConfig.blank with
    dataRpa := some "[\"items\"]"
    dataGeoObjectType := some "Star"
    dataCoordinates := .arr [.num (.ofNat 1)] }

/-- An entry with `data-geo-object-type="Point"`, `data-long="20"`,
`data-coordinates="1"` and no `data-lat`. -/
def noLatConfig : MapConfig :=
  { MapConfig.blank with
    dataRpa := some "[\"items\"]"
    dataGeoObjectType := some "Point"
    dataLong := some "20"
    dataCoordinates := .arr [.num (.ofNat 1)] }

/-- An entry with `data-geo-object-type="Point"`, `data-lat="0"`,
`data-long="20"` and `data-coordinates="1"`: a point on the equator. -/
def equatorConfig : MapConfig :=
  { MapConfig.blank with
    dataGeoObjectType := some "Point"
    dataLat := some "0"
    dataLong := some "20"
    dataCoordinates := .arr [.num (.ofNat 1)] }

/-- An entry with `data-geo-object-type="Point"`, `data-lat="10"`,
`data-long="20"` and no other attribute. -/
def pointConfig : MapConfig :=
  { MapConfig.blank with
    dataGeoObjectType := some "Point"
    dataLat := some "10"
    dataLong := some "20" }

/-- An attribute that is present and not the empty string. -/
def filled (a : Option String) : Prop := ∃ s, a = some s ∧ s ≠ ""

/-- An entry with `data-balloon=""` (the attribute is there, with no value) and
the three balloon texts. -/
def emptyFlagConfig : MapConfig :=
  { MapConfig.blank with
    dataBalloon := some ""
    dataBalloonHeader := some "Title"
    dataBalloonBody := some "Text"
    dataBalloonFooter := some "Note" }

/-- An entry with `data-balloon="true"`, the header `{{name.first}}` and
literal body and footer. -/
def balloonConfig : MapConfig :=
  { MapConfig.blank with
    dataBalloon := some "true"
    dataBalloonHeader := some (template "name.first")
    dataBalloonBody := some "Text"
    dataBalloonFooter := some "Note" }

/-- A feed-driven entry: event `places`, path `["items"]`, Point markers at
`{{geo.lat}}`, `{{geo.lng}}`, and `data-coordinates="1"`. -/
def feedConfig : MapConfig :=
  { MapConfig.blank with
    dataEvent := some "places"
    dataRpa := some "[\"items\"]"
    dataGeoObjectType := some "Point"
    dataLat := some (template "geo.lat")
    dataLong := some (template "geo.lng")
    dataCoordinates := .arr [.num (.ofNat 1)] }

/-- A feed item with the position `{geo: {lat, lng}}`. -/
def place (lat lng : Nat) : JSValue :=
  .obj [("geo", .obj [("lat", .num (.ofNat lat)), ("lng", .num (.ofNat lng))])]

/-- The marker `feedConfig` derives from `place lat lng`. -/
def placeMarker (lat lng : Nat) : Marker :=
  plainMarker (.obj [("type", .str "Point"),
    ("coordinates", .arr [.num (.ofNat lat), .num (.ofNat lng)])])

/-- A feed payload `{items: [...]}`. -/
def payload (items : List JSValue) : JSValue := .obj [("items", .arr items)]

/-! ## Map creation -/

/-- The value of a run of digits that are all valid in the given radix. -/
def radixValue (radix : Nat) (ds : List Char) : Nat :=
  ds.foldl (fun a c => radix * a + (radixDigit? radix c).getD 0) 0

/-- The global `parseInt` called with one argument: the argument is converted
to a string, leading white space and a sign are skipped, a prefix `0x` or
`0X` selects radix 16 (radix 10 otherwise), and the longest run of digits is
read; NaN when there is no digit. -/
def parseInt (v : JSValue) : JSNum :=
  let s := (toStr v).dropWhile isWhiteSpace
  let neg : Bool := s.head? = some '-'
  let s1 := if s.head? = some '-' ∨ s.head? = some '+' then s.tail else s
  let hex : Bool := s1.head? = some '0' ∧ (s1.tail.head? = some 'x' ∨ s1.tail.head? = some 'X')
  let radix := if hex then 16 else 10
  let s2 := if hex then s1.drop 2 else s1
  let ds := s2.takeWhile (fun c => (radixDigit? radix c).isSome)
  if ds = [] then .nan else JSNum.ofDecimal neg (radixValue radix ds) 0

/-- The function `mapZoom`. -/
def mapZoom (mapObject : MapConfig) : JSNum :=
  if toBoolean (attr mapObject.dataZoom) && toBoolean (.num (parseInt (attr mapObject.dataZoom))) then
    parseInt (attr mapObject.dataZoom)
  else .ofNat 8

/-- The object `mapOptions` that `createMap` builds and passes to
`new ymaps.Map(mapObject.mapDOMNode, mapOptions)`. -/
def mapOptions (mapObject : MapConfig) : JSValue :=
  .obj [("zoom", .num (mapZoom mapObject)),
    ("center",
      if toBoolean (attr mapObject.dataCenterLat) && toBoolean (attr mapObject.dataCenterLong) &&
          toBoolean (.num (parseFloat (attr mapObject.dataCenterLat))) &&
          toBoolean (.num (parseFloat (attr mapObject.dataCenterLong))) then
        .arr [.num (parseFloat (attr mapObject.dataCenterLat)),
          .num (parseFloat (attr mapObject.dataCenterLong))]
      else .arr [.num (.dec false 40 0), .num (.dec true 100 0)])]

/-- What `initalizeMaps` does for one entry, seen from the entry: `createMap`
leaves a fresh widget; for a feed-driven entry (`dataEvent` truthy) the feed
handler is registered and nothing else happens, otherwise `createMarker`
runs. -/
def initalizeMap (mapObject : MapConfig) : Except JSError MapState :=
  if toBoolean (attr mapObject.dataEvent) then .ok MapState.fresh
  else createMarker mapObject MapState.fresh

/-! ## The page scan -/

/-- A page element: its identity and its attributes. -/
structure Element where
  node : Nat
  attributes : List (String × String)

/-- The call `elem.getAttribute(name)`; `none` stands for `null`. -/
def Element.getAttribute (elem : Element) (name : String) : Option String :=
  (elem.attributes.find? (fun kv => kv.1 == name)).map (fun kv => kv.2)

/-- The body of the loop of `findMaps`: the entry built for one element.
`JSON.parse('[' + elem.getAttribute('data-coordinates') + ']')` is the one
step that can throw. -/
def scanElement (JSON_parse : String → Except JSError JSValue) (elem : Element) :
    Except JSError MapConfig := do
  let dataCoordinates ← JSON_parse
    (String.mk ('[' :: (toStr (attr (elem.getAttribute "data-coordinates")) ++ [']'])))
  pure
    { mapDOMNode := elem.node
      dataEvent := elem.getAttribute "data-sm"
      dataRpa := elem.getAttribute "data-rpath"
      dataZoom := elem.getAttribute "data-zoom"
      dataCenterAddress := elem.getAttribute "data-center-address"
      dataCenterLat := elem.getAttribute "data-center-latitude"
      dataCenterLong := elem.getAttribute "data-center-longitude"
      dataCenterAuto := elem.getAttribute "data-center-auto"
      dataMapType := elem.getAttribute "data-map-type"
      dataGeoObjectType := elem.getAttribute "data-geo-object-type"
      dataLat := elem.getAttribute "data-lat"
      dataLong := elem.getAttribute "data-long"
      dataRadius := elem.getAttribute "data-radius"
      dataCoordinates := dataCoordinates
      dataBalloon := elem.getAttribute "data-balloon"
      dataBalloonHeader := elem.getAttribute "data-balloon-header"
      dataBalloonBody := elem.getAttribute "data-balloon-body"
      dataBalloonFooter := elem.getAttribute "data-balloon-footer"
      dataHint := elem.getAttribute "data-hint"
      dataPreset := elem.getAttribute "data-preset"
      dataDraggable := elem.getAttribute "data-draggable" }

/-- The function `findMaps` on the elements the document query returned: the
entries pushed onto `maps`, and the exception that ended the scan, if any. -/
def findMaps (JSON_parse : String → Except JSError JSValue) :
    List Element → List MapConfig × Option JSError
  | [] => ([], none)
  | elem :: rest =>
    match scanElement JSON_parse elem with
    | .error e => ([], some e)
    | .ok mapsData =>
      ((mapsData :: (findMaps JSON_parse rest).1), (findMaps JSON_parse rest).2)

/-! ## Lookup accessors -/

/-- One element of `maps` as the accessors read it: the element, the field
`map_object` (a widget reference, unset until `createMap` has run for the
entry) and the field `markers` (unset until `createMarkers` has run). -/
structure TrackedMap where
  mapDOMNode : Nat
  map_object : Option Nat
  markers : Option (List GeoObject)

/-- What an accessor returns: `null`, `undefined` (the value of a field that
was never set) or the value of the field. -/
inductive Found (α : Type) where
  | null
  | undefined
  | value (a : α)

/-- The value of a field that may be unset. -/
def Found.ofField {α : Type} : Option α → Found α
  | none => .undefined
  | some a => .value a

/-- The entry of `maps` for a config whose widget has the reference
`widget` and whose mutable part is `st`. -/
def TrackedMap.ofState (mapObject : MapConfig) (widget : Nat) (st : MapState) : TrackedMap :=
  ⟨mapObject.mapDOMNode, some widget, st.markers⟩

/-- The function `getObjectBySelector`. `querySelectorAll` is the document
query: the matching elements in document order, or the exception raised for
a text that is not a selector. The `forEach` runs over all of `maps`, so the
last entry with the element wins. -/
def getObjectBySelector (querySelectorAll : String → Except JSError (List Nat))
    (maps : List TrackedMap) (mapSelector : String) : Except JSError (Found Nat) := do
  let domNode ← querySelectorAll mapSelector
  match domNode with
  | [] => pure .null
  | first :: _ =>
    pure (maps.foldl (fun map item =>
      if first = item.mapDOMNode then Found.ofField item.map_object else map) .null)

/-- The function `getMarkersByID`. -/
def getMarkersByID (querySelectorAll : String → Except JSError (List Nat))
    (maps : List TrackedMap) (mapSelector : String) :
    Except JSError (Found (List GeoObject)) := do
  let domNode ← querySelectorAll mapSelector
  match domNode with
  | [] => pure .null
  | first :: _ =>
    pure (maps.foldl (fun map item =>
      if first = item.mapDOMNode then Found.ofField item.markers else map) .null)

/-! ## Sample inputs for the page scan, the map options and the accessors -/

/-- The behaviour of `JSON.parse` on the coordinate texts the samples use. -/
def parseCoordinateList (text : String) : Except JSError JSValue :=
  if text = "[null]" then .ok (.arr [.null])
  else if text = "[1]" then .ok (.arr [.num (.ofNat 1)])
  else if text = "[[0,0],[0,10],[10,10]]" then
    .ok (.arr [.arr [.num (.ofNat 0), .num (.ofNat 0)], .arr [.num (.ofNat 0), .num (.ofNat 10)],
      .arr [.num (.ofNat 10), .num (.ofNat 10)]])
  else if text = "[[1,0],[0,10],[10,10]]" then
    .ok (.arr [.arr [.num (.ofNat 1), .num (.ofNat 0)], .arr [.num (.ofNat 0), .num (.ofNat 10)],
      .arr [.num (.ofNat 10), .num (.ofNat 10)]])
  else .error .syntaxError

/-- The element `<div data-geo-object-type="Point" data-lat="10" data-long="20">`. -/
def pointElement : Element :=
  ⟨1, [("data-geo-object-type", "Point"), ("data-lat", "10"), ("data-long", "20")]⟩

/-- The same element with `data-coordinates="1"`. -/
def pointElementWithList : Element :=
  ⟨2, [("data-geo-object-type", "Point"), ("data-lat", "10"), ("data-long", "20"),
    ("data-coordinates", "1")]⟩

/-- The element `<div data-geo-object-type="Polygon"
data-coordinates="[0,0],[0,10],[10,10]">`: a triangle with a corner at the
origin. -/
def polygonElement : Element :=
  ⟨3, [("data-geo-object-type", "Polygon"), ("data-coordinates", "[0,0],[0,10],[10,10]")]⟩

/-- The same triangle moved one unit: `data-coordinates="[1,0],[0,10],[10,10]"`. -/
def shiftedPolygonElement : Element :=
  ⟨4, [("data-geo-object-type", "Polygon"), ("data-coordinates", "[1,0],[0,10],[10,10]")]⟩

/-- The coordinate list of `polygonElement` as `JSON.parse` returns it. -/
def triangle : JSValue :=
  .arr [.arr [.num (.ofNat 0), .num (.ofNat 0)], .arr [.num (.ofNat 0), .num (.ofNat 10)],
    .arr [.num (.ofNat 10), .num (.ofNat 10)]]

/-- The coordinate list of `shiftedPolygonElement` as `JSON.parse` returns it. -/
def shiftedTriangle : JSValue :=
  .arr [.arr [.num (.ofNat 1), .num (.ofNat 0)], .arr [.num (.ofNat 0), .num (.ofNat 10)],
    .arr [.num (.ofNat 10), .num (.ofNat 10)]]

/-- An entry with `data-zoom="0"`. -/
def zeroZoomConfig : MapConfig := { MapConfig.blank with dataZoom := some "0" }

/-- An entry with `data-center-latitude="0"` and `data-center-longitude="37"`:
a center on the equator. -/
def equatorCenterConfig : MapConfig :=
  { MapConfig.blank with dataCenterLat := some "0", dataCenterLong := some "37" }

/-- A document in which `#map` matches the element 1, `#other` matches the
elements 5 and 1 in this order, `#none` matches nothing, and any other text
is not a selector. -/
def sampleQuery (selector : String) : Except JSError (List Nat) :=
  if selector = "#map" then .ok [1]
  else if selector = "#other" then .ok [5, 1]
  else if selector = "#none" then .ok []
  else .error .syntaxError

/-! ## Initialization, as the accessors see it -/

/-- The entry of `maps` for a config `createMap` has not run for. -/
def TrackedMap.untouched (mapObject : MapConfig) : TrackedMap :=
  ⟨mapObject.mapDOMNode, none, none⟩

/-- The function `initalizeMaps` on the entries of `maps`: what the accessors
can read afterwards, and the exception that ended the `forEach`, if any.
For each entry in turn `createMap` sets `map_object` (the widget made by
`new ymaps.Map(mapObject.mapDOMNode, ...)` is referred to by the element it
is bound to), then the feed handler is registered or `createMarker` runs. An
exception in `createMarker` leaves the `forEach`: the entry keeps its widget,
the entries after it are never touched. -/
def initalizeMaps : List MapConfig → List TrackedMap × Option JSError
  | [] => ([], none)
  | map :: rest =>
    match initalizeMap map with
    | .error e =>
      (⟨map.mapDOMNode, some map.mapDOMNode, none⟩ :: rest.map TrackedMap.untouched, some e)
    | .ok st =>
      (TrackedMap.ofState map map.mapDOMNode st :: (initalizeMaps rest).1,
        (initalizeMaps rest).2)

/-- The function `init` on the elements the document query of `findMaps`
returned: `findMaps`, then `initalizeMaps`, which does not run when the scan
was ended by an exception. -/
def init (JSON_parse : String → Except JSError JSValue) (mapQuery : List Element) :
    List TrackedMap × Option JSError :=
  match (findMaps JSON_parse mapQuery).2 with
  | some e => ((findMaps JSON_parse mapQuery).1.map TrackedMap.untouched, some e)
  | none => initalizeMaps (findMaps JSON_parse mapQuery).1

/-- A document in which `#a` matches the element 1 and `#b` the element 2;
any other text is not a selector. -/
def twoMapQuery (selector : String) : Except JSError (List Nat) :=
  if selector = "#a" then .ok [1]
  else if selector = "#b" then .ok [2]
  else .error .syntaxError

/-! ## Auxiliary facts -/

theorem markerGeometry_inv (cfg : MapConfig) (item g : JSValue)
    (h : markerGeometry cfg item = .ok g) :
    ∃ ll r c, markerLatLong cfg item = .ok ll ∧ markerRadius cfg item = .ok r ∧
      markerCoordinatesArray cfg item = .ok c ∧
      g = (if cfg.dataGeoObjectType = some "Point" then
          .obj [("type", attr cfg.dataGeoObjectType), ("coordinates", ll)]
        else if cfg.dataGeoObjectType = some "Circle" then
          .obj [("type", attr cfg.dataGeoObjectType), ("coordinates", ll), ("radius", r)]
        else if cfg.dataGeoObjectType = some "Polygon" ∨
            cfg.dataGeoObjectType = some "Rectangle" ∨
            cfg.dataGeoObjectType = some "LineString" then
          .obj [("type", attr cfg.dataGeoObjectType), ("coordinates", c)]
        else .obj [("type", attr cfg.dataGeoObjectType)]) := by
  unfold markerGeometry at h
  cases h1 : markerLatLong cfg item with
  | error e => simp [h1, bind, Except.bind] at h
  | ok ll =>
    cases h2 : markerRadius cfg item with
    | error e => simp [h1, h2, bind, Except.bind] at h
    | ok r =>
      cases h3 : markerCoordinatesArray cfg item with
      | error e => simp [h1, h2, h3, bind, Except.bind] at h
      | ok c =>
        refine ⟨ll, r, c, rfl, rfl, rfl, ?_⟩
        simp only [h1, h2, h3, bind, Except.bind, pure, Except.pure] at h
        split_ifs at h ⊢ <;> exact (Except.ok.inj h).symm

theorem markerGeometry_truthy (cfg : MapConfig) (item g : JSValue)
    (h : markerGeometry cfg item = .ok g) : toBoolean g = true := by
  obtain ⟨ll, r, c, -, -, -, hg⟩ := markerGeometry_inv cfg item g h
  subst hg
  split_ifs <;> rfl

theorem deriveMarker_inv (cfg : MapConfig) (item : JSValue) (m : Marker)
    (h : deriveMarker cfg item = .ok m) :
    markerGeometry cfg item = .ok m.geometry ∧ markerProperties cfg item = .ok m.properties ∧
      m.options = markerOptions cfg := by
  unfold deriveMarker at h
  cases h1 : markerGeometry cfg item with
  | error e => simp [h1, bind, Except.bind] at h
  | ok g =>
    cases h2 : markerProperties cfg item with
    | error e => simp [h1, h2, bind, Except.bind] at h
    | ok p =>
      simp only [h1, h2, bind, Except.bind, pure, Except.pure] at h
      have := Except.ok.inj h
      subst this
      exact ⟨rfl, rfl, rfl⟩

theorem deriveMarker_truthy (cfg : MapConfig) (item : JSValue) (m : Marker)
    (h : deriveMarker cfg item = .ok m) : toBoolean m.geometry = true :=
  markerGeometry_truthy cfg item m.geometry (deriveMarker_inv cfg item m h).1

theorem createMarker_adds (cfg : MapConfig) (st : MapState) (m : Marker)
    (h : deriveMarker cfg .undefined = .ok m) :
    createMarker cfg st = .ok { st with
      marker := some ⟨st.nextId, m⟩
      geoObjects := st.geoObjects ++ [⟨st.nextId, m⟩]
      nextId := st.nextId + 1 } := by
  have ht := deriveMarker_truthy cfg .undefined m h
  simp [createMarker, h, ht, bind, Except.bind, pure, Except.pure]

theorem createMarkersLoop_cons (cfg : MapConfig) (st : MapState) (item : JSValue)
    (rest : List JSValue) (m : Marker) (h : deriveMarker cfg item = .ok m) :
    createMarkersLoop cfg (item :: rest) st = createMarkersLoop cfg rest { st with
      markers := some (st.markers.getD [] ++ [⟨st.nextId, m⟩])
      geoObjects := st.geoObjects ++ [⟨st.nextId, m⟩]
      nextId := st.nextId + 1 } := by
  have ht := deriveMarker_truthy cfg item m h
  simp [createMarkersLoop, h, ht]

theorem createMarkersLoop_append (cfg : MapConfig) (pre : List JSValue) (ms : List Marker)
    (h : List.Forall₂ (fun item m => deriveMarker cfg item = .ok m) pre ms) :
    ∀ (rest : List JSValue) (geo : List GeoObject) (mk : Option GeoObject)
      (l : List GeoObject) (n : Nat),
      createMarkersLoop cfg (pre ++ rest) ⟨geo, mk, some l, n⟩ =
        createMarkersLoop cfg rest
          ⟨geo ++ numbered n ms, mk, some (l ++ numbered n ms), n + ms.length⟩ := by
  induction h with
  | nil => intro rest geo mk l n; simp [numbered]
  | @cons item m items ms hd _ ih =>
    intro rest geo mk l n
    rw [List.cons_append, createMarkersLoop_cons cfg _ item _ m hd]
    simp only [Option.getD_some]
    rw [ih]
    simp [numbered, List.append_assoc, Nat.add_assoc, Nat.add_comm 1]

theorem foldl_removeGeoObject_covered (ms : List GeoObject) :
    ∀ geo : List GeoObject, (∀ g ∈ geo, ∃ m ∈ ms, m.id = g.id) →
      ms.foldl removeGeoObject geo = [] := by
  induction ms with
  | nil =>
    intro geo h
    rw [List.foldl_nil, List.eq_nil_iff_forall_not_mem]
    intro g hg
    obtain ⟨m, hm, -⟩ := h g hg
    exact absurd hm (List.not_mem_nil m)
  | cons m ms ih =>
    intro geo h
    rw [List.foldl_cons]
    apply ih
    intro g hg
    unfold removeGeoObject at hg
    rw [List.mem_filter] at hg
    obtain ⟨hgeo, hne⟩ := hg
    obtain ⟨m', hm', hid⟩ := h g hgeo
    rcases List.mem_cons.mp hm' with heq | hin
    · subst heq
      simp [hid] at hne
    · exact ⟨m', hin, hid⟩

theorem foldl_removeGeoObject_self (ms : List GeoObject) :
    ms.foldl removeGeoObject ms = [] :=
  foldl_removeGeoObject_covered ms ms (fun g hg => ⟨g, hg, rfl⟩)

theorem createMarkersLoop_tracks (cfg : MapConfig) (items : List JSValue) :
    ∀ (st : MapState) (l : List GeoObject), st.markers = some l → st.geoObjects = l →
      (createMarkersLoop cfg items st).state.geoObjects =
        (createMarkersLoop cfg items st).state.markers.getD [] := by
  induction items with
  | nil => intro st l h1 h2; simp [createMarkersLoop, h1, h2]
  | cons item items ih =>
    intro st l h1 h2
    unfold createMarkersLoop
    cases hd : deriveMarker cfg item with
    | error e => simp [h1, h2]
    | ok m =>
      simp only
      split_ifs
      · exact ih _ (l ++ [⟨st.nextId, m⟩]) (by simp [h1]) (by simp [h2])
      · exact ih st l h1 h2

theorem clearMarkers_geoObjects (st : MapState) (h : st.geoObjects = st.markers.getD []) :
    (clearMarkers st).geoObjects = [] := by
  unfold clearMarkers
  cases hm : st.markers with
  | none => simp [h, hm]
  | some l =>
    simp only
    rw [hm] at h
    simp only [Option.getD_some] at h
    rw [h]
    exact foldl_removeGeoObject_self l

theorem reachable_tracks (JSON_parse : String → Except JSError JSValue) (cfg : MapConfig)
    (st : MapState) (h : Reachable JSON_parse cfg st) :
    st.geoObjects = st.markers.getD [] := by
  induction h with
  | fresh => rfl
  | feed st data _ ih =>
    have hc := clearMarkers_geoObjects st ih
    unfold onFeedEvent createMarkers
    cases hf : feedItems JSON_parse cfg data with
    | error e => simp [hc]
    | ok items =>
      simp only
      exact createMarkersLoop_tracks cfg items _ [] rfl hc

theorem parsesTruthy_null : parsesTruthy .null = false := rfl

/-! ## C1: an unrecognized geometry type -/

/-- C1, the code at the failing input. The entry `starConfig` has the geometry
type `Star`, none of the five known ones. `markerGeometry` yields the record
`{type: 'Star'}`, without coordinates, and the marker is not skipped: the
guard `if(marker.geometry)` sees a record, so `createMarker` adds the marker
to the widget, and `createMarkers`, run on a feed list of one item, adds it
to the widget and to the tracked marker list. -/
theorem unrecognized_type_marker_not_skipped :
    starConfig.dataGeoObjectType = some "Star" ∧
    markerGeometry starConfig .undefined = .ok (.obj [("type", .str "Star")]) ∧
    createMarker starConfig MapState.fresh =
      .ok ⟨[⟨0, plainMarker (.obj [("type", .str "Star")])⟩],
        some ⟨0, plainMarker (.obj [("type", .str "Star")])⟩, none, 1⟩ ∧
    createMarkers parseItemsPath starConfig MapState.fresh
        (.obj [("items", .arr [.obj []])]) =
      ⟨⟨[⟨0, plainMarker (.obj [("type", .str "Star")])⟩], none,
        some [⟨0, plainMarker (.obj [("type", .str "Star")])⟩], 1⟩, none⟩ :=
  ⟨rfl, rfl, rfl, rfl⟩

/-- The reach of the guard on an unrecognized geometry type. For every config
whose geometry type is none of Point, Circle, Polygon, Rectangle and
LineString, and every feed item or none:
whenever `markerGeometry` returns, the geometry is the record holding the type
and nothing else (no coordinates); that record is truthy, so the marker is not
skipped: once the marker is derived, `createMarker` stores it and adds it to
the widget's collection, and the loop of `createMarkers` appends it to the
tracked list and to the widget's collection before going on. -/
theorem unrecognized_type_geometry (cfg : MapConfig)
    (hPoint : cfg.dataGeoObjectType ≠ some "Point")
    (hCircle : cfg.dataGeoObjectType ≠ some "Circle")
    (hPolygon : cfg.dataGeoObjectType ≠ some "Polygon")
    (hRectangle : cfg.dataGeoObjectType ≠ some "Rectangle")
    (hLineString : cfg.dataGeoObjectType ≠ some "LineString") :
    (∀ item g, markerGeometry cfg item = .ok g →
      g = .obj [("type", attr cfg.dataGeoObjectType)] ∧
      hasField g "coordinates" = false ∧ toBoolean g = true) ∧
    (∀ st m, deriveMarker cfg .undefined = .ok m →
      m.geometry = .obj [("type", attr cfg.dataGeoObjectType)] ∧
      createMarker cfg st = .ok { st with
        marker := some ⟨st.nextId, m⟩
        geoObjects := st.geoObjects ++ [⟨st.nextId, m⟩]
        nextId := st.nextId + 1 }) ∧
    (∀ st item rest m, deriveMarker cfg item = .ok m →
      m.geometry = .obj [("type", attr cfg.dataGeoObjectType)] ∧
      createMarkersLoop cfg (item :: rest) st = createMarkersLoop cfg rest { st with
        markers := some (st.markers.getD [] ++ [⟨st.nextId, m⟩])
        geoObjects := st.geoObjects ++ [⟨st.nextId, m⟩]
        nextId := st.nextId + 1 }) := by
  have key : ∀ item g, markerGeometry cfg item = .ok g →
      g = .obj [("type", attr cfg.dataGeoObjectType)] := by
    intro item g h
    obtain ⟨ll, r, c, -, -, -, hg⟩ := markerGeometry_inv cfg item g h
    rw [hg]
    simp [hPoint, hCircle, hPolygon, hRectangle, hLineString]
  refine ⟨?_, ?_, ?_⟩
  · intro item g h
    have hg := key item g h
    subst hg
    exact ⟨rfl, rfl, rfl⟩
  · intro st m h
    exact ⟨key _ _ (deriveMarker_inv cfg _ m h).1, createMarker_adds cfg st m h⟩
  · intro st item rest m h
    exact ⟨key _ _ (deriveMarker_inv cfg _ m h).1, createMarkersLoop_cons cfg st item rest m h⟩

/-- The statement above applied to `starConfig`, with no feed item and on a
fresh map. -/
theorem unrecognized_type_geometry_example :
    markerGeometry starConfig .undefined = .ok (.obj [("type", .str "Star")]) ∧
    hasField (.obj [("type", attr starConfig.dataGeoObjectType)]) "coordinates" = false ∧
    createMarker starConfig MapState.fresh = .ok { MapState.fresh with
      marker := some ⟨0, plainMarker (.obj [("type", .str "Star")])⟩
      geoObjects := [] ++ [⟨0, plainMarker (.obj [("type", .str "Star")])⟩]
      nextId := 0 + 1 } :=
  have h := unrecognized_type_geometry starConfig (by decide) (by decide) (by decide)
    (by decide) (by decide)
  ⟨rfl, ((h.1 .undefined (.obj [("type", attr starConfig.dataGeoObjectType)]) rfl).2).1,
    (h.2.1 MapState.fresh (plainMarker (.obj [("type", .str "Star")])) rfl).2⟩

/-! ## C3, C4: literal latitude and longitude -/

theorem markerLatLong_literal (cfg : MapConfig) (item : JSValue)
    (hLong : parsesTruthy (attr cfg.dataLong) = true)
    (hLat : parsesTruthy (attr cfg.dataLat) = true) :
    markerLatLong cfg item = .ok (.arr [attr cfg.dataLat, attr cfg.dataLong]) := by
  simp [markerLatLong, hLong, hLat]

/-- C3, the code at the failing input. With `data-lat="0"` and
`data-long="20"` the test `!!parseFloat(mapObject.dataLat)` is false, so
`markerLatLong` does not return the pair of literals: it treats both
attributes as feed paths. On the feed item `{}` the result is `[{}, {}]`;
with no feed item the lookup throws a TypeError, and so does `createMarker`. -/
theorem zero_latitude_is_resolved_as_path :
    parsesTruthy (attr equatorConfig.dataLat) = false ∧
    markerLatLong equatorConfig (.obj []) = .ok (.arr [.obj [], .obj []]) ∧
    markerLatLong equatorConfig .undefined = .error .typeError ∧
    createMarker equatorConfig MapState.fresh = .error .typeError :=
  ⟨rfl, rfl, rfl, rfl⟩

/-- C4, the code at the failing input. `pointConfig` is a Point at latitude
10 and longitude 20 with no `data-coordinates` attribute, so `dataCoordinates`
is `[null]`: `parseFloat` of it is NaN, the array is truthy, and
`markerCoordinatesArray` hands it to `getValue`, where `stripEntry` calls
`match` on an array. `markerGeometry` and `createMarker` end in that
TypeError and no marker is added. The same entry with `data-coordinates="1"`
yields the Point geometry with the two attribute values and one marker. -/
theorem point_without_coordinate_list_throws :
    parsesTruthy pointConfig.dataCoordinates = false ∧
    markerCoordinatesArray pointConfig .undefined = .error .typeError ∧
    markerGeometry pointConfig .undefined = .error .typeError ∧
    createMarker pointConfig MapState.fresh = .error .typeError ∧
    createMarker { pointConfig with dataCoordinates := .arr [.num (.ofNat 1)] } MapState.fresh =
      .ok ⟨[⟨0, plainMarker (.obj [("type", .str "Point"),
          ("coordinates", .arr [.str "10", .str "20"])])⟩],
        some ⟨0, plainMarker (.obj [("type", .str "Point"),
          ("coordinates", .arr [.str "10", .str "20"])])⟩, none, 1⟩ :=
  ⟨rfl, rfl, rfl, rfl, rfl⟩

/-! ## C5: latitude or longitude absent -/

/-- C5, the code at the failing input. `noLatConfig` is a Point with no
`data-lat`. `markerLatLong` returns `undefined`, yet marker derivation does
not return absent: the geometry is the record `{type: 'Point', coordinates:
undefined}`, the guard `if(marker.geometry)` sees a record, and the marker is
added: by `createMarker` to the widget, by `createMarkers` (feed list of one
item) to the widget and to the tracked list. -/
theorem absent_latitude_marker_not_skipped :
    noLatConfig.dataGeoObjectType = some "Point" ∧ noLatConfig.dataLat = none ∧
    markerLatLong noLatConfig .undefined = .ok .undefined ∧
    createMarker noLatConfig MapState.fresh =
      .ok ⟨[⟨0, plainMarker (.obj [("type", .str "Point"), ("coordinates", .undefined)])⟩],
        some ⟨0, plainMarker (.obj [("type", .str "Point"), ("coordinates", .undefined)])⟩,
        none, 1⟩ ∧
    createMarkers parseItemsPath noLatConfig MapState.fresh
        (.obj [("items", .arr [.obj []])]) =
      ⟨⟨[⟨0, plainMarker (.obj [("type", .str "Point"), ("coordinates", .undefined)])⟩], none,
        some [⟨0, plainMarker (.obj [("type", .str "Point"), ("coordinates", .undefined)])⟩],
        1⟩, none⟩ :=
  ⟨rfl, rfl, rfl, rfl, rfl⟩

/-- The reach of the guard on an absent position. For every config of type
Point or Circle whose latitude or longitude attribute is absent, and every
feed item or none: `markerLatLong`
returns `undefined`; whenever `markerGeometry` returns, the geometry is a
record whose `coordinates` are `undefined`, and it is truthy, so the marker is
not skipped: once the marker is derived, `createMarker` stores it and adds it
to the widget's collection, and the loop of `createMarkers` appends it to the
tracked list and to the widget's collection before going on. -/
theorem absent_lat_long_geometry (cfg : MapConfig)
    (hType : cfg.dataGeoObjectType = some "Point" ∨ cfg.dataGeoObjectType = some "Circle")
    (hAbsent : cfg.dataLat = none ∨ cfg.dataLong = none) :
    (∀ item, markerLatLong cfg item = .ok .undefined) ∧
    (∀ item g, markerGeometry cfg item = .ok g →
      getProp g "coordinates" = .ok .undefined ∧ toBoolean g = true) ∧
    (∀ st m, deriveMarker cfg .undefined = .ok m →
      createMarker cfg st = .ok { st with
        marker := some ⟨st.nextId, m⟩
        geoObjects := st.geoObjects ++ [⟨st.nextId, m⟩]
        nextId := st.nextId + 1 }) ∧
    (∀ st item rest m, deriveMarker cfg item = .ok m →
      createMarkersLoop cfg (item :: rest) st = createMarkersLoop cfg rest { st with
        markers := some (st.markers.getD [] ++ [⟨st.nextId, m⟩])
        geoObjects := st.geoObjects ++ [⟨st.nextId, m⟩]
        nextId := st.nextId + 1 }) := by
  have hll : ∀ item, markerLatLong cfg item = .ok .undefined := by
    intro item
    rcases hAbsent with h | h <;>
      simp [markerLatLong, h, attr, parsesTruthy_null, toBoolean]
  refine ⟨hll, ?_, fun st m h => createMarker_adds cfg st m h,
    fun st item rest m h => createMarkersLoop_cons cfg st item rest m h⟩
  intro item g h
  obtain ⟨ll, r, c, h1, -, -, hg⟩ := markerGeometry_inv cfg item g h
  rw [hll item] at h1
  have hl : ll = .undefined := (Except.ok.inj h1).symm
  subst hl
  refine ⟨?_, markerGeometry_truthy cfg item g h⟩
  rw [hg]
  rcases hType with h | h
  · simp [h, getProp, lookupKey]
  · simp [h, getProp, lookupKey]

/-- The statement above applied to `noLatConfig`, with no feed item and on a
fresh map. -/
theorem absent_lat_long_geometry_example :
    markerLatLong noLatConfig .undefined = .ok .undefined ∧
    createMarker noLatConfig MapState.fresh = .ok { MapState.fresh with
      marker := some ⟨0, plainMarker (.obj [("type", .str "Point"), ("coordinates", .undefined)])⟩
      geoObjects :=
        [] ++ [⟨0, plainMarker (.obj [("type", .str "Point"), ("coordinates", .undefined)])⟩]
      nextId := 0 + 1 } :=
  have h := absent_lat_long_geometry noLatConfig (Or.inl rfl) (Or.inl rfl)
  ⟨h.1 .undefined, h.2.2.1 MapState.fresh
    (plainMarker (.obj [("type", .str "Point"), ("coordinates", .undefined)])) rfl⟩

/-! ## C2: templated field values -/

theorem captureUntilClose_close (p : List Char) :
    captureUntilClose (p ++ ['\x7d', '\x7d']) = some p := by
  induction p with
  | nil => rfl
  | cons c p ih => simp [captureUntilClose, ih]

theorem dropPrefix?_append (pre s r t : List Char) (h : dropPrefix? pre s = some r) :
    dropPrefix? pre (s ++ t) = some (r ++ t) := by
  induction pre generalizing s with
  | nil => simp [dropPrefix?] at h ⊢; rw [h]
  | cons a pre ih =>
    cases s with
    | nil => simp [dropPrefix?] at h
    | cons c s =>
      simp only [dropPrefix?, List.cons_append] at h ⊢
      split_ifs at h ⊢ with hac
      exact ih s h

theorem afterEntryGroup_append (p q t : List Char) (h : afterEntryGroup p = some q) :
    afterEntryGroup (p ++ t) = some (q ++ t) := by
  unfold afterEntryGroup at h ⊢
  cases hd : dropPrefix? "entry".toList p with
  | none => rw [hd] at h; simp at h
  | some r =>
    rw [hd] at h
    cases r with
    | nil => simp at h
    | cons c rest =>
      rw [dropPrefix?_append _ _ _ t hd]
      simp only [List.cons_append] at h ⊢
      split_ifs at h ⊢
      simpa using h

theorem afterEntryGroup_close_none (p : List Char) (h : afterEntryGroup p = none) :
    (afterEntryGroup (p ++ ['\x7d', '\x7d'])).bind captureUntilClose = none := by
  have e5 : "entry".toList = ['e', 'n', 't', 'r', 'y'] := rfl
  unfold afterEntryGroup at h ⊢
  rw [e5] at h ⊢
  rcases p with _ | ⟨a, _ | ⟨b, _ | ⟨c, _ | ⟨d, _ | ⟨e, _ | ⟨f, q⟩⟩⟩⟩⟩⟩
  · simp [dropPrefix?]
  · simp [dropPrefix?]
  · simp [dropPrefix?]
  · simp [dropPrefix?]
  · simp [dropPrefix?]
  · simp only [dropPrefix?, List.cons_append, List.nil_append]
    split_ifs
    · have hl : isLineTerminator '\x7d' = false := rfl
      simp [hl, captureUntilClose]
    all_goals simp
  · simp only [dropPrefix?, List.cons_append] at h ⊢
    split_ifs at h ⊢ <;> simp_all

theorem matchHere_template (p : List Char) :
    matchHere ('\x7b' :: '\x7b' :: (p ++ ['\x7d', '\x7d'])) = some (dropNamespace p) := by
  have h0 : dropPrefix? "\x7b\x7b".toList ('\x7b' :: '\x7b' :: (p ++ ['\x7d', '\x7d'])) =
      some (p ++ ['\x7d', '\x7d']) := rfl
  unfold matchHere dropNamespace
  rw [h0]
  cases h : afterEntryGroup p with
  | some q =>
    simp [afterEntryGroup_append p q _ h, captureUntilClose_close]
  | none =>
    simp [afterEntryGroup_close_none p h, captureUntilClose_close]

theorem stripEntry_template (path : String) :
    stripEntry (.str (template path)) = .ok (String.mk (dropNamespace path.toList)) := by
  have hl : (template path).toList = '\x7b' :: '\x7b' :: (path.toList ++ ['\x7d', '\x7d']) := by
    simp [template, String.toList, String.data_append]
  unfold stripEntry
  simp only
  rw [hl]
  simp only [regexMatch, matchHere_template]

theorem foldlM_getProp_of_valueAt (parts : List String) :
    ∀ (start v : JSValue), valueAt parts start = some v →
      parts.foldlM getProp start = .ok v := by
  induction parts with
  | nil =>
    intro start v h
    simp only [valueAt, Option.some.injEq] at h
    subst h
    rfl
  | cons part parts ih =>
    intro start v h
    unfold valueAt at h
    cases hp : getProp start part with
    | error e => simp [hp] at h
    | ok w =>
      simp only [hp] at h
      simp only [List.foldlM, bind, Except.bind, hp]
      exact ih w v h

/-- C2, the code at the failing input. For the field value `{{geo.lat}}` and
the feed item `{}`, in which the intermediate segment `geo` is missing,
`getValue` does not return an empty record: `getNamespacedObject` reads
`lat` of `undefined` and throws a TypeError. When only the final segment is
missing (feed item `{geo: {}}`) the result is the empty record, and when the
path is there (latitude 55) it is the value found. A latitude of 0 that is
found at the path is not returned either: the result is the empty record. -/
theorem getValue_throws_on_missing_intermediate :
    getValue (.str (template "geo.lat")) (.obj []) = .error .typeError ∧
    getNamespacedObject ["geo", "lat"] (.obj []) = .error .typeError ∧
    getValue (.str (template "geo.lat")) (.obj [("geo", .obj [])]) = .ok (.obj []) ∧
    getValue (.str (template "geo.lat")) (place 55 20) = .ok (.num (.ofNat 55)) ∧
    getValue (.str (template "geo.lat")) (place 0 20) = .ok (.obj []) :=
  ⟨rfl, rfl, rfl, rfl, rfl⟩

/-- What `getValue` computes on a template whenever the descent gets through.
For every field value `{{path}}` and every feed item whose property `0` can
be read (any item but `undefined` and `null`): `getValue` takes the
delimiters and what the pattern reads as a namespace token off, starts at
`dataItem[0]` when that is truthy and at `dataItem` otherwise, and, when
every segment of the dot-separated path can be read on the way down, returns
the value found if it is truthy and an empty record if it is falsy. -/
theorem getValue_template (path : String) (dataItem first v : JSValue)
    (hfirst : getProp dataItem "0" = .ok first)
    (hpath : valueAt (splitDot (String.mk (dropNamespace path.toList)))
      (jsOr first dataItem) = some v) :
    getValue (.str (template path)) dataItem = .ok (if toBoolean v then v else .obj []) := by
  have hfold := foldlM_getProp_of_valueAt _ _ _ hpath
  simp only [getValue, stripEntry_template, getNamespacedObject, hfirst, hfold, bind,
    Except.bind, pure, Except.pure]
  rfl

/-- The statement above for the path `geo.lat`, on a feed item that has it
and on one that lacks the last segment. -/
theorem getValue_template_example :
    getValue (.str (template "geo.lat"))
        (.obj [("geo", .obj [("lat", .num (.ofNat 55))])]) =
      .ok (if toBoolean (.num (.ofNat 55)) then .num (.ofNat 55) else .obj []) ∧
    getValue (.str (template "geo.lat")) (.obj [("geo", .obj [])]) =
      .ok (if toBoolean .undefined then .undefined else .obj []) :=
  ⟨getValue_template "geo.lat" (.obj [("geo", .obj [("lat", .num (.ofNat 55))])])
      .undefined (.num (.ofNat 55)) rfl rfl,
    getValue_template "geo.lat" (.obj [("geo", .obj [])]) .undefined .undefined rfl rfl⟩

/-! ## C6: balloon fields -/

theorem toBoolean_attr (a : Option String) : toBoolean (attr a) = true ↔ filled a := by
  cases a with
  | none => simp [attr, toBoolean, filled]
  | some s =>
    obtain ⟨data⟩ := s
    cases data with
    | nil => simp [attr, toBoolean, filled, String.toList]
    | cons c cs =>
      have hne : (String.mk (c :: cs)) ≠ "" := by
        intro h
        have := congrArg String.data h
        simp at this
      simp [attr, toBoolean, filled, String.toList, hne]

theorem balloonRequested_iff (cfg : MapConfig) :
    balloonRequested cfg = true ↔
      filled cfg.dataBalloon ∧ filled cfg.dataBalloonHeader ∧
      filled cfg.dataBalloonBody ∧ filled cfg.dataBalloonFooter := by
  simp only [balloonRequested, Bool.and_eq_true, toBoolean_attr, and_assoc]

/-- C6, counterexample. In `emptyFlagConfig` the balloon flag, header, body
and footer attributes are all present, the flag with an empty value, and the
result of `markerBalloon` has none of the three fields. In `balloonConfig`
all four are present and non-empty, and for the feed item `{}` there is no
result: resolving the header path `name.first` throws a TypeError. -/
theorem balloon_fields_missing_though_present :
    emptyFlagConfig.dataBalloon = some "" ∧
    emptyFlagConfig.dataBalloonHeader = some "Title" ∧
    emptyFlagConfig.dataBalloonBody = some "Text" ∧
    emptyFlagConfig.dataBalloonFooter = some "Note" ∧
    markerBalloon emptyFlagConfig .undefined = .ok (.obj []) ∧
    markerBalloon balloonConfig (.obj []) = .error .typeError :=
  ⟨rfl, rfl, rfl, rfl, rfl, rfl⟩

/-- C6, amended. For every config and every feed item or none: when the
balloon flag, header, body and footer attributes are all present and not
empty, the result of `markerBalloon` holds exactly the three balloon content
fields: the attribute values when there is no feed item (or a `null` one),
the resolved values when there is a feed item and the three of them resolve;
when any one of the four attributes is missing or empty, the result holds
none of the three fields. -/
theorem markerBalloon_fields (cfg : MapConfig) (dataItem : JSValue) :
    (filled cfg.dataBalloon ∧ filled cfg.dataBalloonHeader ∧
        filled cfg.dataBalloonBody ∧ filled cfg.dataBalloonFooter →
      (toBoolean dataItem = false →
        markerBalloon cfg dataItem = .ok (.obj [
          ("balloonContentHeader", attr cfg.dataBalloonHeader),
          ("balloonContentBody", attr cfg.dataBalloonBody),
          ("balloonContentFooter", attr cfg.dataBalloonFooter)])) ∧
      (toBoolean dataItem = true → ∀ header body footer,
        getValue (attr cfg.dataBalloonHeader) dataItem = .ok header →
        getValue (attr cfg.dataBalloonBody) dataItem = .ok body →
        getValue (attr cfg.dataBalloonFooter) dataItem = .ok footer →
        markerBalloon cfg dataItem = .ok (.obj [
          ("balloonContentHeader", header),
          ("balloonContentBody", body),
          ("balloonContentFooter", footer)]))) ∧
    (¬ (filled cfg.dataBalloon ∧ filled cfg.dataBalloonHeader ∧
        filled cfg.dataBalloonBody ∧ filled cfg.dataBalloonFooter) →
      markerBalloon cfg dataItem = .ok (.obj []) ∧
      hasField (.obj []) "balloonContentHeader" = false ∧
      hasField (.obj []) "balloonContentBody" = false ∧
      hasField (.obj []) "balloonContentFooter" = false) := by
  refine ⟨fun hall => ⟨fun hitem => ?_, fun hitem header body footer hh hb hf => ?_⟩,
    fun hnot => ⟨?_, rfl, rfl, rfl⟩⟩
  · have hreq := (balloonRequested_iff cfg).mpr hall
    simp [markerBalloon, hreq, hitem]
  · have hreq := (balloonRequested_iff cfg).mpr hall
    simp [markerBalloon, hreq, hitem, hh, hb, hf, bind, Except.bind, pure, Except.pure]
  · have hreq : balloonRequested cfg = false := by
      cases h : balloonRequested cfg with
      | false => rfl
      | true => exact absurd ((balloonRequested_iff cfg).mp h) hnot
    simp [markerBalloon, hreq]

/-- C6, witness: `balloonConfig` without a feed item, `balloonConfig` with a
feed item that has the header path, and the blank entry. -/
theorem markerBalloon_fields_witness :
    markerBalloon balloonConfig .undefined = .ok (.obj [
      ("balloonContentHeader", attr balloonConfig.dataBalloonHeader),
      ("balloonContentBody", attr balloonConfig.dataBalloonBody),
      ("balloonContentFooter", attr balloonConfig.dataBalloonFooter)]) ∧
    markerBalloon balloonConfig (.obj [("name", .obj [("first", .str "Ada")])]) = .ok (.obj [
      ("balloonContentHeader", .str "Ada"),
      ("balloonContentBody", .obj []),
      ("balloonContentFooter", .obj [])]) ∧
    markerBalloon MapConfig.blank .undefined = .ok (.obj []) :=
  have hall : filled balloonConfig.dataBalloon ∧ filled balloonConfig.dataBalloonHeader ∧
      filled balloonConfig.dataBalloonBody ∧ filled balloonConfig.dataBalloonFooter :=
    ⟨⟨_, rfl, by decide⟩, ⟨_, rfl, by decide⟩, ⟨_, rfl, by decide⟩, ⟨_, rfl, by decide⟩⟩
  ⟨((markerBalloon_fields balloonConfig .undefined).1 hall).1 rfl,
    ((markerBalloon_fields balloonConfig (.obj [("name", .obj [("first", .str "Ada")])])).1
      hall).2 rfl _ _ _ rfl rfl rfl,
    ((markerBalloon_fields MapConfig.blank .undefined).2
      (fun h => by obtain ⟨⟨s, hs, -⟩, -⟩ := h; cases hs)).1⟩

/-! ## C7, C8: the loop of `createMarkers` -/

theorem feedItems_of_list (JSON_parse : String → Except JSError JSValue) (cfg : MapConfig)
    (data : JSValue) (path xs : List JSValue)
    (hparse : JSON_parse (String.mk (toStr (attr cfg.dataRpa))) = .ok (.arr path))
    (hdata : descendPath path data = .ok (.arr xs)) :
    feedItems JSON_parse cfg data = .ok (xs.filter isObject) := by
  simp [feedItems, hparse, hdata, bind, Except.bind, pure, Except.pure, filter]

theorem createMarkersLoop_same (cfg : MapConfig) (items : List JSValue) :
    ∀ (st : MapState) (l : List GeoObject), st.markers = some l →
      ∃ added, (createMarkersLoop cfg items st).state.markers = some (l ++ added) ∧
        (createMarkersLoop cfg items st).state.geoObjects = st.geoObjects ++ added := by
  induction items with
  | nil => intro st l h; exact ⟨[], by simp [createMarkersLoop, h]⟩
  | cons item items ih =>
    intro st l h
    unfold createMarkersLoop
    cases hd : deriveMarker cfg item with
    | error e => exact ⟨[], by simp [h]⟩
    | ok m =>
      simp only
      split_ifs
      · obtain ⟨added, h1, h2⟩ := ih { st with
          markers := some (st.markers.getD [] ++ [⟨st.nextId, m⟩])
          geoObjects := st.geoObjects ++ [⟨st.nextId, m⟩]
          nextId := st.nextId + 1 } (l ++ [⟨st.nextId, m⟩]) (by simp [h])
        exact ⟨⟨st.nextId, m⟩ :: added, by simpa using h1, by simpa using h2⟩
      · exact ih st l h

/-- C7, the code at the failing input. `isObject(null)` is true, because
`typeof null` is `'object'`: in the feed list `[null, {geo: {lat: 1, lng:
2}}]` the primitive `null` is not discarded, it is the first item the loop of
`createMarkers` gets. With `feedConfig`, whose latitude and longitude are
feed paths, deriving its marker throws a TypeError: the loop is left with no
marker added, although the second item derives a marker. With the literal
position of `pointConfig` (and `data-coordinates="1"`) the `null` item gets
a marker of its own. -/
theorem null_item_passes_the_filter :
    isObject .null = true ∧
    feedItems parseItemsPath feedConfig (payload [.null, place 1 2]) =
      .ok [.null, place 1 2] ∧
    createMarkers parseItemsPath feedConfig MapState.fresh (payload [.null, place 1 2]) =
      ⟨⟨[], none, some [], 0⟩, some .typeError⟩ ∧
    deriveMarker feedConfig (place 1 2) = .ok (placeMarker 1 2) ∧
    createMarkers parseItemsPath
        { pointConfig with
          dataRpa := some "[\"items\"]", dataCoordinates := .arr [.num (.ofNat 1)] }
        MapState.fresh (payload [.null]) =
      ⟨⟨[⟨0, plainMarker (.obj [("type", .str "Point"),
            ("coordinates", .arr [.str "10", .str "20"])])⟩], none,
          some [⟨0, plainMarker (.obj [("type", .str "Point"),
            ("coordinates", .arr [.str "10", .str "20"])])⟩], 1⟩, none⟩ :=
  ⟨rfl, rfl, rfl, rfl, rfl⟩

/-- What `createMarkers` does when every item it loops over derives a marker.
For every config, state and feed payload, `createMarkers`
leaves a tracked marker list, and what it appended to the widget's
collection is that list, in the same order. When the configured path parses
to a list of keys and the descent along it reaches a list `xs`, the loop runs
over the items of `xs` whose `typeof` is `'object'` (records, arrays and
`null`; `undefined`, booleans, numbers and strings are discarded), in their
order in `xs`; and when a marker is derived for each of them, `createMarkers`
ends normally with these markers, in that order, as the tracked marker list,
and with the same markers appended to the widget's collection. -/
theorem createMarkers_appends_in_feed_order (JSON_parse : String → Except JSError JSValue)
    (cfg : MapConfig) (st : MapState) (data : JSValue) :
    (∃ added, (createMarkers JSON_parse cfg st data).state.markers = some added ∧
      (createMarkers JSON_parse cfg st data).state.geoObjects = st.geoObjects ++ added) ∧
    (∀ (path xs : List JSValue) (ms : List Marker),
      JSON_parse (String.mk (toStr (attr cfg.dataRpa))) = .ok (.arr path) →
      descendPath path data = .ok (.arr xs) →
      List.Forall₂ (fun item m => deriveMarker cfg item = .ok m) (xs.filter isObject) ms →
      feedItems JSON_parse cfg data = .ok (xs.filter isObject) ∧
      (xs.filter isObject).Sublist xs ∧
      (∀ x, x ∈ xs.filter isObject ↔ x ∈ xs ∧ isObject x = true) ∧
      createMarkers JSON_parse cfg st data =
        ⟨{ st with
            markers := some (numbered st.nextId ms)
            geoObjects := st.geoObjects ++ numbered st.nextId ms
            nextId := st.nextId + ms.length }, none⟩) := by
  constructor
  · unfold createMarkers
    cases hf : feedItems JSON_parse cfg data with
    | error e => exact ⟨[], by simp⟩
    | ok items =>
      obtain ⟨added, h1, h2⟩ := createMarkersLoop_same cfg items
        { st with markers := some [] } [] rfl
      exact ⟨added, by simpa using h1, by simpa using h2⟩
  · intro path xs ms hparse hdata hmarkers
    have hitems := feedItems_of_list JSON_parse cfg data path xs hparse hdata
    refine ⟨hitems, List.filter_sublist xs, fun x => List.mem_filter, ?_⟩
    unfold createMarkers
    rw [hitems]
    simp only
    have h := createMarkersLoop_append cfg _ ms hmarkers [] st.geoObjects st.marker [] st.nextId
    rw [List.append_nil] at h
    rw [h]
    simp [createMarkersLoop]

/-- The statement above for `feedConfig` on a fresh map and a feed list of two
places with a number and a string between them. -/
theorem createMarkers_appends_in_feed_order_example :
    createMarkers parseItemsPath feedConfig MapState.fresh
        (payload [place 1 2, .num (.ofNat 5), .str "x", place 3 4]) =
      ⟨{ MapState.fresh with
          markers := some (numbered 0 [placeMarker 1 2, placeMarker 3 4])
          geoObjects := [] ++ numbered 0 [placeMarker 1 2, placeMarker 3 4]
          nextId := 0 + 2 }, none⟩ :=
  ((createMarkers_appends_in_feed_order parseItemsPath feedConfig MapState.fresh
    (payload [place 1 2, .num (.ofNat 5), .str "x", place 3 4])).2 [.str "items"]
    [place 1 2, .num (.ofNat 5), .str "x", place 3 4] [placeMarker 1 2, placeMarker 3 4]
    rfl rfl (.cons rfl (.cons rfl .nil))).2.2.2

/-- C8, counterexample. With `feedConfig`, a feed list whose second item lacks
the intermediate key `geo`, and one whose second item is `null`: the first
item's marker is added, the derivation for the second item throws a
TypeError, and the loop is left at once: the third item, a valid place, gets
no marker. -/
theorem failure_in_one_item_aborts_the_loop :
    createMarkers parseItemsPath feedConfig MapState.fresh
        (payload [place 1 2, .obj [], place 3 4]) =
      ⟨⟨[⟨0, placeMarker 1 2⟩], none, some [⟨0, placeMarker 1 2⟩], 1⟩, some .typeError⟩ ∧
    createMarkers parseItemsPath feedConfig MapState.fresh
        (payload [place 1 2, .null, place 3 4]) =
      ⟨⟨[⟨0, placeMarker 1 2⟩], none, some [⟨0, placeMarker 1 2⟩], 1⟩, some .typeError⟩ ∧
    deriveMarker feedConfig (place 3 4) = .ok (placeMarker 3 4) :=
  ⟨rfl, rfl, rfl⟩

/-- C8, amended. For every feed list processed by `createMarkers`, a failure
while deriving the marker of one item ends the loop: the exception leaves
`createMarkers`, the markers of the items before the failing one stay in the
tracked list and in the widget's collection, and no marker is derived or
added for the items after it. -/
theorem createMarkers_stops_at_failure (JSON_parse : String → Except JSError JSValue)
    (cfg : MapConfig) (st : MapState) (data : JSValue) (path xs : List JSValue)
    (before after : List JSValue) (failing : JSValue) (ms : List Marker) (e : JSError)
    (hparse : JSON_parse (String.mk (toStr (attr cfg.dataRpa))) = .ok (.arr path))
    (hdata : descendPath path data = .ok (.arr xs))
    (hsplit : xs.filter isObject = before ++ failing :: after)
    (hbefore : List.Forall₂ (fun item m => deriveMarker cfg item = .ok m) before ms)
    (hfailing : deriveMarker cfg failing = .error e) :
    createMarkers JSON_parse cfg st data =
      ⟨{ st with
          markers := some (numbered st.nextId ms)
          geoObjects := st.geoObjects ++ numbered st.nextId ms
          nextId := st.nextId + ms.length }, some e⟩ := by
  have hitems := feedItems_of_list JSON_parse cfg data path xs hparse hdata
  unfold createMarkers
  rw [hitems, hsplit]
  simp only
  rw [createMarkersLoop_append cfg _ ms hbefore]
  simp [createMarkersLoop, hfailing]

/-- C8, witness: `feedConfig`, a feed list whose second item is `null`. -/
theorem createMarkers_stops_at_failure_witness :
    createMarkers parseItemsPath feedConfig MapState.fresh
        (payload [place 1 2, .null, place 3 4]) =
      ⟨{ MapState.fresh with
          markers := some (numbered 0 [placeMarker 1 2])
          geoObjects := [] ++ numbered 0 [placeMarker 1 2]
          nextId := 0 + 1 }, some .typeError⟩ :=
  createMarkers_stops_at_failure parseItemsPath feedConfig MapState.fresh
    (payload [place 1 2, .null, place 3 4]) [.str "items"] [place 1 2, .null, place 3 4]
    [place 1 2] [place 3 4] .null [placeMarker 1 2] .typeError
    rfl rfl rfl (.cons rfl .nil) rfl

/-! ## C9, C10: clearing the markers -/

/-- C9. For every feed-driven config and every state the map entry can be in
after any number of feed events: a feed event whose payload resolves to the
empty list runs `clearMarkers` and `createMarkers` to their normal end and
leaves the widget's marker collection empty and the tracked marker list
empty. -/
theorem refresh_with_empty_list_empties_widget
    (JSON_parse : String → Except JSError JSValue) (cfg : MapConfig) (st : MapState)
    (data : JSValue) (path : List JSValue)
    (hreach : Reachable JSON_parse cfg st)
    (hparse : JSON_parse (String.mk (toStr (attr cfg.dataRpa))) = .ok (.arr path))
    (hdata : descendPath path data = .ok (.arr [])) :
    createMarkers JSON_parse cfg (clearMarkers st) data =
      ⟨{ st with geoObjects := [], markers := some [] }, none⟩ := by
  have hgeo := clearMarkers_geoObjects st (reachable_tracks JSON_parse cfg st hreach)
  have hitems := feedItems_of_list JSON_parse cfg data path [] hparse hdata
  have hmarker : (clearMarkers st).marker = st.marker := by
    unfold clearMarkers; cases st.markers <;> rfl
  have hnext : (clearMarkers st).nextId = st.nextId := by
    unfold clearMarkers; cases st.markers <;> rfl
  unfold createMarkers
  rw [hitems]
  simp [createMarkersLoop, hgeo, hmarker, hnext]

/-- C9, witness: `feedConfig`, first a feed event with two places, then one
with an empty list. -/
theorem refresh_with_empty_list_empties_widget_witness :
    (onFeedEvent parseItemsPath feedConfig MapState.fresh
        (payload [place 1 2, place 3 4])).state.geoObjects =
      [⟨0, placeMarker 1 2⟩, ⟨1, placeMarker 3 4⟩] ∧
    createMarkers parseItemsPath feedConfig
        (clearMarkers (onFeedEvent parseItemsPath feedConfig MapState.fresh
          (payload [place 1 2, place 3 4])).state) (payload []) =
      ⟨{ (onFeedEvent parseItemsPath feedConfig MapState.fresh
            (payload [place 1 2, place 3 4])).state with
          geoObjects := [], markers := some [] }, none⟩ :=
  ⟨rfl, refresh_with_empty_list_empties_widget parseItemsPath feedConfig _ (payload [])
    [.str "items"] (.feed MapState.fresh (payload [place 1 2, place 3 4]) .fresh) rfl rfl⟩

theorem clearMarkers_of_empty (st : MapState) (h : st.markers = some []) :
    clearMarkers st = st := by
  obtain ⟨geo, mk, markers, n⟩ := st
  simp only at h
  subst h
  rfl

/-- C10, counterexample. On the fresh entry, whose marker list is absent,
`clearMarkers` returns at its first line: after the first call and after
the second the marker list is still absent, not the empty list. -/
theorem clearMarkers_keeps_absent_list_absent :
    MapState.fresh.markers = none ∧
    (clearMarkers MapState.fresh).markers = none ∧
    (clearMarkers (clearMarkers MapState.fresh)).markers = none :=
  ⟨rfl, rfl, rfl⟩

/-- C10, amended. For every state of a map entry, `clearMarkers` (which has
no step that can fail) called twice in a row: when the marker list is absent,
both calls leave the entry as it is, the list still absent; when there is a
marker list, it is the empty list after the first call and after the second;
in both cases the second call changes nothing. -/
theorem clearMarkers_twice (st : MapState) :
    (st.markers = none → clearMarkers st = st ∧ clearMarkers (clearMarkers st) = st) ∧
    (st.markers ≠ none →
      (clearMarkers st).markers = some [] ∧
      (clearMarkers (clearMarkers st)).markers = some []) ∧
    clearMarkers (clearMarkers st) = clearMarkers st := by
  cases hm : st.markers with
  | none =>
    have h1 : clearMarkers st = st := by simp [clearMarkers, hm]
    simp [h1]
  | some l =>
    have h1 : (clearMarkers st).markers = some [] := by simp [clearMarkers, hm]
    have h2 : clearMarkers (clearMarkers st) = clearMarkers st :=
      clearMarkers_of_empty (clearMarkers st) h1
    simp [h1, h2]

/-- C10, witness: the fresh entry, and the entry after a feed event with two
places. -/
theorem clearMarkers_twice_witness :
    (clearMarkers MapState.fresh = MapState.fresh ∧
      clearMarkers (clearMarkers MapState.fresh) = MapState.fresh) ∧
    ((clearMarkers (onFeedEvent parseItemsPath feedConfig MapState.fresh
        (payload [place 1 2, place 3 4])).state).markers = some [] ∧
      (clearMarkers (clearMarkers (onFeedEvent parseItemsPath feedConfig MapState.fresh
        (payload [place 1 2, place 3 4])).state)).markers = some []) :=
  ⟨(clearMarkers_twice MapState.fresh).1 rfl,
    (clearMarkers_twice (onFeedEvent parseItemsPath feedConfig MapState.fresh
      (payload [place 1 2, place 3 4])).state).2.1 (fun h => by cases h)⟩

/-! ## C11, C12: the lookup accessors -/

theorem foldl_lookup_of_no_match {α : Type} (first : Nat) (field : TrackedMap → Found α)
    (maps : List TrackedMap) (h : ∀ item ∈ maps, item.mapDOMNode ≠ first) :
    ∀ init : Found α, maps.foldl (fun map item =>
      if first = item.mapDOMNode then field item else map) init = init := by
  induction maps with
  | nil => intro init; rfl
  | cons item maps ih =>
    intro init
    have hne : ¬ first = item.mapDOMNode := fun heq =>
      h item (List.mem_cons_self _ _) heq.symm
    rw [List.foldl_cons, if_neg hne]
    exact ih (fun x hx => h x (List.mem_cons_of_mem _ hx)) init

theorem foldl_lookup_of_last_match {α : Type} (first : Nat) (field : TrackedMap → Found α)
    (before after : List TrackedMap) (item : TrackedMap) (hitem : item.mapDOMNode = first)
    (hafter : ∀ x ∈ after, x.mapDOMNode ≠ first) (init : Found α) :
    (before ++ item :: after).foldl (fun map item =>
      if first = item.mapDOMNode then field item else map) init = field item := by
  rw [List.foldl_append, List.foldl_cons, if_pos hitem.symm]
  exact foldl_lookup_of_no_match first field after hafter _

/-- C11, the code at the failing input. A page with two standalone maps: `#a`,
the element `pointElement` without `data-coordinates`, followed by `#b`, the
element `pointElementWithList`. `init` scans both; `initalizeMaps` creates
the widget of `#a`, and `createMarker` throws on it (the TypeError of the
missing coordinate list), which ends the `forEach`: `createMap` never runs
for `#b`. The element of `#b` is tracked, and `getObjectBySelector('#b')`
returns the value of its unset field `map_object`: `undefined`, neither
`null` nor a widget reference. For `#a` the widget is returned. -/
theorem getObjectBySelector_undefined_after_aborted_init :
    init parseCoordinateList [pointElement, pointElementWithList] =
      ([⟨1, some 1, none⟩, ⟨2, none, none⟩], some .typeError) ∧
    getObjectBySelector twoMapQuery [⟨1, some 1, none⟩, ⟨2, none, none⟩] "#b" =
      .ok .undefined ∧
    getObjectBySelector twoMapQuery [⟨1, some 1, none⟩, ⟨2, none, none⟩] "#a" =
      .ok (.value 1) :=
  ⟨rfl, rfl, rfl⟩

/-- What `getObjectBySelector` returns in general. For every selector the
document can be queried with and every list
of tracked entries: `getObjectBySelector` returns `null` when the selector
matches no element, and when its first match is the element of no tracked
entry; otherwise it returns what the field `map_object` of the tracked entry
with that element holds (of the last such entry, should the element be
tracked more than once): the widget reference, once `createMap` has set it. -/
theorem getObjectBySelector_result (querySelectorAll : String → Except JSError (List Nat))
    (maps : List TrackedMap) (mapSelector : String) :
    (querySelectorAll mapSelector = .ok [] →
      getObjectBySelector querySelectorAll maps mapSelector = .ok .null) ∧
    (∀ first more, querySelectorAll mapSelector = .ok (first :: more) →
      (∀ item ∈ maps, item.mapDOMNode ≠ first) →
      getObjectBySelector querySelectorAll maps mapSelector = .ok .null) ∧
    (∀ first more before item after, querySelectorAll mapSelector = .ok (first :: more) →
      maps = before ++ item :: after → item.mapDOMNode = first →
      (∀ x ∈ after, x.mapDOMNode ≠ first) →
      getObjectBySelector querySelectorAll maps mapSelector =
        .ok (Found.ofField item.map_object) ∧
      ∀ widget, item.map_object = some widget →
        getObjectBySelector querySelectorAll maps mapSelector = .ok (.value widget)) := by
  refine ⟨fun h => ?_, fun first more h hno => ?_,
    fun first more before item after h hmaps hitem hafter => ?_⟩
  · simp [getObjectBySelector, h, bind, Except.bind, pure, Except.pure]
  · simp only [getObjectBySelector, h, bind, Except.bind, pure, Except.pure]
    rw [foldl_lookup_of_no_match first (fun item => Found.ofField item.map_object) maps hno]
  · have hres : getObjectBySelector querySelectorAll maps mapSelector =
        .ok (Found.ofField item.map_object) := by
      simp only [getObjectBySelector, h, bind, Except.bind, pure, Except.pure]
      rw [hmaps, foldl_lookup_of_last_match first (fun item => Found.ofField item.map_object)
        before after item hitem hafter]
    refine ⟨hres, fun widget hw => ?_⟩
    rw [hres, hw]
    rfl

/-- The statement above for two tracked entries, for the elements 1 and 2,
with the widgets 11 and 12; `#none` matches nothing, `#other` matches the
untracked element 5 first, `#map` matches the element 1. -/
theorem getObjectBySelector_result_example :
    getObjectBySelector sampleQuery [⟨1, some 11, none⟩, ⟨2, some 12, none⟩] "#none" =
      .ok .null ∧
    getObjectBySelector sampleQuery [⟨1, some 11, none⟩, ⟨2, some 12, none⟩] "#other" =
      .ok .null ∧
    getObjectBySelector sampleQuery [⟨1, some 11, none⟩, ⟨2, some 12, none⟩] "#map" =
      .ok (.value 11) :=
  ⟨(getObjectBySelector_result sampleQuery [⟨1, some 11, none⟩, ⟨2, some 12, none⟩] "#none").1
      rfl,
    (getObjectBySelector_result sampleQuery [⟨1, some 11, none⟩, ⟨2, some 12, none⟩]
      "#other").2.1 5 [1] rfl (by decide),
    ((getObjectBySelector_result sampleQuery [⟨1, some 11, none⟩, ⟨2, some 12, none⟩]
      "#map").2.2 1 [] [] ⟨1, some 11, none⟩ [⟨2, some 12, none⟩] rfl rfl rfl
      (by decide)).2 11 rfl⟩

theorem getMarkersByID_result (querySelectorAll : String → Except JSError (List Nat))
    (maps : List TrackedMap) (mapSelector : String) :
    (querySelectorAll mapSelector = .ok [] →
      getMarkersByID querySelectorAll maps mapSelector = .ok .null) ∧
    (∀ first more, querySelectorAll mapSelector = .ok (first :: more) →
      (∀ item ∈ maps, item.mapDOMNode ≠ first) →
      getMarkersByID querySelectorAll maps mapSelector = .ok .null) ∧
    (∀ first more before item after, querySelectorAll mapSelector = .ok (first :: more) →
      maps = before ++ item :: after → item.mapDOMNode = first →
      (∀ x ∈ after, x.mapDOMNode ≠ first) →
      getMarkersByID querySelectorAll maps mapSelector = .ok (Found.ofField item.markers)) := by
  refine ⟨fun h => ?_, fun first more h hno => ?_,
    fun first more before item after h hmaps hitem hafter => ?_⟩
  · simp [getMarkersByID, h, bind, Except.bind, pure, Except.pure]
  · simp only [getMarkersByID, h, bind, Except.bind, pure, Except.pure]
    rw [foldl_lookup_of_no_match first (fun item => Found.ofField item.markers) maps hno]
  · simp only [getMarkersByID, h, bind, Except.bind, pure, Except.pure]
    rw [hmaps, foldl_lookup_of_last_match first (fun item => Found.ofField item.markers)
      before after item hitem hafter]

/-- C12, the code at the failing input. The standalone entry built from
`pointElementWithList` is initialized: `createMarker` stores its one marker
in the field `marker` and adds it to the widget, and leaves `markers` unset.
`getMarkersByID('#map')` finds the entry and returns the value of `markers`:
`undefined`, neither a list nor `null`. The same holds of the feed-driven
entry `feedConfig` before its first feed event. -/
theorem getMarkersByID_undefined_for_standalone_map :
    scanElement parseCoordinateList { pointElementWithList with node := 1 } =
      .ok { pointConfig with mapDOMNode := 1, dataCoordinates := .arr [.num (.ofNat 1)] } ∧
    initalizeMap { pointConfig with mapDOMNode := 1, dataCoordinates := .arr [.num (.ofNat 1)] } =
      .ok ⟨[⟨0, plainMarker (.obj [("type", .str "Point"),
          ("coordinates", .arr [.str "10", .str "20"])])⟩],
        some ⟨0, plainMarker (.obj [("type", .str "Point"),
          ("coordinates", .arr [.str "10", .str "20"])])⟩, none, 1⟩ ∧
    getMarkersByID sampleQuery
        [TrackedMap.ofState
          { pointConfig with mapDOMNode := 1, dataCoordinates := .arr [.num (.ofNat 1)] } 11
          ⟨[⟨0, plainMarker (.obj [("type", .str "Point"),
              ("coordinates", .arr [.str "10", .str "20"])])⟩],
            some ⟨0, plainMarker (.obj [("type", .str "Point"),
              ("coordinates", .arr [.str "10", .str "20"])])⟩, none, 1⟩] "#map" =
      .ok .undefined ∧
    initalizeMap { feedConfig with mapDOMNode := 1 } = .ok MapState.fresh ∧
    getMarkersByID sampleQuery
        [TrackedMap.ofState { feedConfig with mapDOMNode := 1 } 11 MapState.fresh] "#map" =
      .ok .undefined :=
  ⟨rfl, rfl, rfl, rfl, rfl⟩

/-! ## C13, C14: zoom and center -/

theorem mapZoom_of_truthy (cfg : MapConfig)
    (hzoom : toBoolean (.num (parseInt (attr cfg.dataZoom))) = true) :
    mapZoom cfg = parseInt (attr cfg.dataZoom) := by
  have hattr : toBoolean (attr cfg.dataZoom) = true := by
    cases h : cfg.dataZoom with
    | none => rw [h] at hzoom; exact absurd hzoom (by decide)
    | some s =>
      obtain ⟨data⟩ := s
      cases data with
      | nil => rw [h] at hzoom; exact absurd hzoom (by decide)
      | cons c cs => rfl
  simp [mapZoom, hzoom, hattr]

/-- C13, the code at the failing input. For `data-zoom="0"` the attribute is
present and `parseInt` reads the integer 0 from it, but 0 is falsy in the test
`!!mapObject.dataZoom && parseInt(mapObject.dataZoom)`, and `mapZoom` returns
8. A zoom of 12 is returned as 12. -/
theorem mapZoom_zero_falls_back_to_eight :
    parseInt (attr zeroZoomConfig.dataZoom) = .dec false 0 0 ∧
    mapZoom zeroZoomConfig = .ofNat 8 ∧
    mapZoom { MapConfig.blank with dataZoom := some "12" } = .ofNat 12 :=
  ⟨rfl, rfl, rfl⟩

/-- C14, the code at the failing input. For `data-center-latitude="0"` and
`data-center-longitude="37"` both attributes are present and parse as the
numbers 0 and 37, but `parseFloat(mapObject.dataCenterLat)` is falsy in the
test of `createMap`, and the map center is the fallback pair `[40, -100]`.
With the latitude 55 the center is `[55, 37]`. -/
theorem center_on_equator_falls_back :
    parseFloat (attr equatorCenterConfig.dataCenterLat) = .dec false 0 0 ∧
    parseFloat (attr equatorCenterConfig.dataCenterLong) = .dec false 37 0 ∧
    getProp (mapOptions equatorCenterConfig) "center" =
      .ok (.arr [.num (.dec false 40 0), .num (.dec true 100 0)]) ∧
    getProp (mapOptions { equatorCenterConfig with dataCenterLat := some "55" }) "center" =
      .ok (.arr [.num (.dec false 55 0), .num (.dec false 37 0)]) :=
  ⟨rfl, rfl, rfl, rfl⟩

/-! ## C15, C16: the coordinate list -/

theorem markerCoordinatesArray_of_truthy (cfg : MapConfig) (item : JSValue)
    (h : parsesTruthy cfg.dataCoordinates = true) :
    markerCoordinatesArray cfg item = .ok cfg.dataCoordinates := by
  simp [markerCoordinatesArray, h]

theorem markerCoordinatesArray_of_array (cfg : MapConfig) (item : JSValue)
    (xs : List JSValue) (hlist : cfg.dataCoordinates = .arr xs)
    (h : parsesTruthy cfg.dataCoordinates = false) :
    markerCoordinatesArray cfg item = .error .typeError := by
  rw [hlist] at h
  simp [markerCoordinatesArray, h, hlist, toBoolean, getValue, stripEntry, bind, Except.bind]

/-- C15, the code at the failing input. `findMaps` parses
`data-coordinates="[0,0],[0,10],[10,10]"` into the list `triangle`, whose
first number is 0. `parseFloat` of the list reads `"0,0,0,10,10,10"`, which is
0 and falsy, so `markerCoordinatesArray` does not return the list: it passes
it to `getValue`, where `stripEntry` calls `match` on an array.
`markerGeometry` ends in that TypeError, with or without a feed item. The
triangle moved one unit, whose first number is 1, is returned as parsed. -/
theorem polygon_from_origin_throws :
    scanElement parseCoordinateList polygonElement =
      .ok { MapConfig.blank with
        mapDOMNode := 3, dataGeoObjectType := some "Polygon", dataCoordinates := triangle } ∧
    parseFloat triangle = .dec false 0 0 ∧
    markerGeometry { MapConfig.blank with
        mapDOMNode := 3, dataGeoObjectType := some "Polygon", dataCoordinates := triangle }
      .undefined = .error .typeError ∧
    markerGeometry { MapConfig.blank with
        mapDOMNode := 3, dataGeoObjectType := some "Polygon", dataCoordinates := triangle }
      (.obj []) = .error .typeError ∧
    markerGeometry { MapConfig.blank with
        mapDOMNode := 4, dataGeoObjectType := some "Polygon", dataCoordinates := shiftedTriangle }
      .undefined = .ok (.obj [("type", .str "Polygon"), ("coordinates", shiftedTriangle)]) :=
  ⟨rfl, rfl, rfl, rfl, rfl⟩

theorem getProp_error (v : JSValue) (key : String) (e : JSError)
    (h : getProp v key = .error e) : e = .typeError := by
  unfold getProp at h
  split at h <;> first
    | exact (Except.error.inj h).symm
    | (split_ifs at h <;> first | cases h | (split at h <;> cases h))
    | cases h

theorem foldlM_getProp_error (parts : List String) :
    ∀ (start : JSValue) (e : JSError), parts.foldlM getProp start = .error e →
      e = .typeError := by
  induction parts with
  | nil => intro start e h; cases h
  | cons part parts ih =>
    intro start e h
    simp only [List.foldlM, bind, Except.bind] at h
    cases hp : getProp start part with
    | error e' =>
      rw [hp] at h
      have := Except.error.inj h
      subst this
      exact getProp_error _ _ _ hp
    | ok w =>
      rw [hp] at h
      exact ih w e h

theorem getValue_error (v dataItem : JSValue) (e : JSError)
    (h : getValue v dataItem = .error e) : e = .typeError := by
  unfold getValue at h
  cases hs : stripEntry v with
  | error e' =>
    simp only [hs, bind, Except.bind] at h
    have := Except.error.inj h
    subst this
    unfold stripEntry at hs
    split at hs
    · split at hs <;> cases hs
    · exact (Except.error.inj hs).symm
  | ok s =>
    simp only [hs, bind, Except.bind, getNamespacedObject] at h
    cases hf : getProp dataItem "0" with
    | error e' =>
      simp only [hf] at h
      have := Except.error.inj h
      subst this
      exact getProp_error _ _ _ hf
    | ok first =>
      simp only [hf] at h
      cases hd : List.foldlM getProp (jsOr first dataItem) (splitDot s) with
      | error e' =>
        simp only [hd] at h
        have := Except.error.inj h
        subst this
        exact foldlM_getProp_error _ _ _ hd
      | ok w => simp [hd, pure, Except.pure] at h

theorem markerLatLong_error (cfg : MapConfig) (item : JSValue) (e : JSError)
    (h : markerLatLong cfg item = .error e) : e = .typeError := by
  unfold markerLatLong at h
  split_ifs at h
  cases h1 : getValue (attr cfg.dataLat) item with
  | error e' =>
    simp only [h1, bind, Except.bind] at h
    have := Except.error.inj h
    subst this
    exact getValue_error _ _ _ h1
  | ok lat =>
    cases h2 : getValue (attr cfg.dataLong) item with
    | error e' =>
      simp only [h1, h2, bind, Except.bind] at h
      have := Except.error.inj h
      subst this
      exact getValue_error _ _ _ h2
    | ok lng => simp [h1, h2, bind, Except.bind, pure, Except.pure] at h

theorem markerRadius_error (cfg : MapConfig) (item : JSValue) (e : JSError)
    (h : markerRadius cfg item = .error e) : e = .typeError := by
  unfold markerRadius at h
  split_ifs at h
  exact getValue_error _ _ _ h

theorem createMarker_of_unusable_list (cfg : MapConfig) (st : MapState) (xs : List JSValue)
    (hlist : cfg.dataCoordinates = .arr xs) (h : parsesTruthy cfg.dataCoordinates = false) :
    createMarker cfg st = .error .typeError := by
  have hc := markerCoordinatesArray_of_array cfg .undefined xs hlist h
  have hg : markerGeometry cfg .undefined = .error .typeError := by
    unfold markerGeometry
    cases h1 : markerLatLong cfg .undefined with
    | error e =>
      have := markerLatLong_error cfg _ e h1
      subst this
      rfl
    | ok ll =>
      cases h2 : markerRadius cfg .undefined with
      | error e =>
        have := markerRadius_error cfg _ e h2
        subst this
        rfl
      | ok r => simp [hc, bind, Except.bind]
  simp [createMarker, deriveMarker, hg, bind, Except.bind]

/-- C16, the code on every failing input. For every element without a
`data-coordinates` attribute (whatever its geometry type, `data-lat` and
`data-long`), given that `JSON.parse('[null]')` is the array `[null]`:
`findMaps` builds an entry for it whose `dataCoordinates` is `[null]`, not an
absent value, and `createMarker` does not complete on that entry: it throws a
TypeError and adds no marker. -/
theorem createMarker_throws_without_coordinate_list
    (JSON_parse : String → Except JSError JSValue) (elem : Element)
    (hparse : JSON_parse "[null]" = .ok (.arr [.null]))
    (hnone : elem.getAttribute "data-coordinates" = none) :
    ∃ cfg, scanElement JSON_parse elem = .ok cfg ∧
      cfg.dataGeoObjectType = elem.getAttribute "data-geo-object-type" ∧
      cfg.dataLat = elem.getAttribute "data-lat" ∧
      cfg.dataLong = elem.getAttribute "data-long" ∧
      cfg.dataCoordinates = .arr [.null] ∧
      ∀ st, createMarker cfg st = .error .typeError := by
  have htext : String.mk ('[' :: (toStr (attr (none : Option String)) ++ [']'])) = "[null]" := rfl
  simp only [scanElement, hnone, htext, hparse, bind, Except.bind, pure, Except.pure]
  exact ⟨_, rfl, rfl, rfl, rfl, rfl,
    fun st => createMarker_of_unusable_list _ st [.null] rfl rfl⟩

/-- C16, witness: the element `pointElement`, a Point with `data-lat="10"`
and `data-long="20"` and no `data-coordinates`. -/
theorem createMarker_throws_without_coordinate_list_witness :
    ∃ cfg, scanElement parseCoordinateList pointElement = .ok cfg ∧
      cfg.dataGeoObjectType = some "Point" ∧
      cfg.dataLat = some "10" ∧
      cfg.dataLong = some "20" ∧
      cfg.dataCoordinates = .arr [.null] ∧
      ∀ st, createMarker cfg st = .error .typeError :=
  createMarker_throws_without_coordinate_list parseCoordinateList pointElement rfl rfl

/-! ## C17: the template pattern -/

theorem dropPrefix?_some (pre : List Char) :
    ∀ (s r : List Char), dropPrefix? pre s = some r → s = pre ++ r := by
  induction pre with
  | nil => intro s r h; simp [dropPrefix?] at h; simp [h]
  | cons a pre ih =>
    intro s r h
    cases s with
    | nil => simp [dropPrefix?] at h
    | cons c s =>
      simp only [dropPrefix?] at h
      split_ifs at h with hac
      subst hac
      rw [ih s r h]
      rfl

theorem afterEntryGroup_of_not_entry (p : List Char) (h : ¬ "entry".toList <+: p) :
    afterEntryGroup p = none := by
  unfold afterEntryGroup
  cases hd : dropPrefix? "entry".toList p with
  | none => rfl
  | some r => exact absurd ⟨r, (dropPrefix?_some _ _ _ hd).symm⟩ h

theorem captureUntilClose_of_no_close (s : List Char) (h : '\x7d' ∉ s) :
    captureUntilClose s = none := by
  induction s with
  | nil => rfl
  | cons c cs ih =>
    have hc : c ≠ '\x7d' := fun heq => h (heq ▸ List.mem_cons_self _ _)
    have hcs : '\x7d' ∉ cs := fun hm => h (List.mem_cons_of_mem _ hm)
    simp [captureUntilClose, ih hcs, hc]

theorem captureUntilClose_close_then (p post : List Char) (h : '\x7d' ∉ post) :
    captureUntilClose (p ++ '\x7d' :: '\x7d' :: post) = some p := by
  have hpost := captureUntilClose_of_no_close post h
  have hhead : post.head? ≠ some '\x7d' := by
    cases post with
    | nil => simp
    | cons c cs =>
      intro heq
      simp only [List.head?_cons, Option.some.injEq] at heq
      exact h (heq ▸ List.mem_cons_self _ _)
  induction p with
  | nil => simp [captureUntilClose, hpost, hhead]
  | cons c p ih => simp [captureUntilClose, ih]

theorem afterEntryGroup_close_none_then (p post : List Char) (h : afterEntryGroup p = none)
    (hpost : '\x7d' ∉ post) :
    (afterEntryGroup (p ++ '\x7d' :: '\x7d' :: post)).bind captureUntilClose = none := by
  have e5 : "entry".toList = ['e', 'n', 't', 'r', 'y'] := rfl
  have hone : captureUntilClose ('\x7d' :: post) = none := by
    have hp := captureUntilClose_of_no_close post hpost
    have hhead : post.head? ≠ some '\x7d' := by
      cases post with
      | nil => simp
      | cons c cs =>
        intro heq
        simp only [List.head?_cons, Option.some.injEq] at heq
        exact hpost (heq ▸ List.mem_cons_self _ _)
    simp [captureUntilClose, hp, hhead]
  unfold afterEntryGroup at h ⊢
  rw [e5] at h ⊢
  rcases p with _ | ⟨a, _ | ⟨b, _ | ⟨c, _ | ⟨d, _ | ⟨e, _ | ⟨f, q⟩⟩⟩⟩⟩⟩
  · simp [dropPrefix?]
  · simp [dropPrefix?]
  · simp [dropPrefix?]
  · simp [dropPrefix?]
  · simp [dropPrefix?]
  · simp only [dropPrefix?, List.cons_append, List.nil_append]
    split_ifs
    · have hl : isLineTerminator '\x7d' = false := rfl
      simp [hl, hone]
    all_goals simp
  · simp only [dropPrefix?, List.cons_append] at h ⊢
    split_ifs at h ⊢ <;> simp_all

theorem matchHere_wrapped (p post : List Char) (hpost : '\x7d' ∉ post) :
    matchHere ('\x7b' :: '\x7b' :: (p ++ '\x7d' :: '\x7d' :: post)) = some (dropNamespace p) := by
  have h0 : dropPrefix? "\x7b\x7b".toList
      ('\x7b' :: '\x7b' :: (p ++ '\x7d' :: '\x7d' :: post)) =
      some (p ++ '\x7d' :: '\x7d' :: post) := rfl
  unfold matchHere dropNamespace
  rw [h0]
  cases h : afterEntryGroup p with
  | some q =>
    have := afterEntryGroup_append p q ('\x7d' :: '\x7d' :: post) h
    simp [this, captureUntilClose_close_then q post hpost]
  | none =>
    simp [afterEntryGroup_close_none_then p post h hpost,
      captureUntilClose_close_then p post hpost]

theorem matchHere_of_head (c : Char) (s : List Char) (h : c ≠ '\x7b') :
    matchHere (c :: s) = none := by
  have h0 : dropPrefix? "\x7b\x7b".toList (c :: s) = none := by
    have e2 : "\x7b\x7b".toList = ['\x7b', '\x7b'] := rfl
    rw [e2]
    simp [dropPrefix?, Ne.symm h]
  unfold matchHere
  rw [h0]

theorem regexMatch_skip (pre s : List Char) (h : '\x7b' ∉ pre) :
    regexMatch (pre ++ s) = regexMatch s := by
  induction pre with
  | nil => rfl
  | cons c pre ih =>
    have hc : c ≠ '\x7b' := fun heq => h (heq ▸ List.mem_cons_self _ _)
    have hpre : '\x7b' ∉ pre := fun hm => h (List.mem_cons_of_mem _ hm)
    rw [List.cons_append, regexMatch, matchHere_of_head c _ hc]
    exact ih hpre

theorem regexMatch_of_no_open (s : List Char) (h : '\x7b' ∉ s) : regexMatch s = none := by
  have := regexMatch_skip s [] h
  rw [List.append_nil] at this
  rw [this]
  rfl

theorem matchHere_of_no_close (s : List Char) (h : '\x7d' ∉ s) : matchHere s = none := by
  unfold matchHere
  cases hd : dropPrefix? "\x7b\x7b".toList s with
  | none => rfl
  | some rest =>
    have hs := dropPrefix?_some _ _ _ hd
    have hrest : '\x7d' ∉ rest := fun hm => h (hs ▸ List.mem_append_right _ hm)
    have h1 : (afterEntryGroup rest).bind captureUntilClose = none := by
      unfold afterEntryGroup
      cases he : dropPrefix? "entry".toList rest with
      | none => rfl
      | some r =>
        cases r with
        | nil => rfl
        | cons c r' =>
          have hr := dropPrefix?_some _ _ _ he
          have hr' : '\x7d' ∉ r' := fun hm =>
            hrest (hr ▸ List.mem_append_right _ (List.mem_cons_of_mem _ hm))
          simp only
          split_ifs
          · rfl
          · exact captureUntilClose_of_no_close r' hr'
    simp only [h1]
    exact captureUntilClose_of_no_close rest hrest

theorem regexMatch_of_no_close (s : List Char) (h : '\x7d' ∉ s) : regexMatch s = none := by
  induction s with
  | nil => rfl
  | cons c cs ih =>
    have hcs : '\x7d' ∉ cs := fun hm => h (List.mem_cons_of_mem _ hm)
    rw [regexMatch, matchHere_of_no_close _ h]
    exact ih hcs

theorem stripEntry_wrapped (pre p post : String) (hpre : '\x7b' ∉ pre.toList)
    (hpost : '\x7d' ∉ post.toList) :
    stripEntry (.str (pre ++ template p ++ post)) =
      .ok (String.mk (dropNamespace p.toList)) := by
  have hl : (pre ++ template p ++ post).toList =
      pre.toList ++ '\x7b' :: '\x7b' :: (p.toList ++ '\x7d' :: '\x7d' :: post.toList) := by
    simp [template, String.toList, String.data_append]
  unfold stripEntry
  simp only
  rw [hl, regexMatch_skip _ _ hpre]
  simp only [regexMatch, matchHere_wrapped _ _ hpost]

/-- C17, the code at the failing input. `{{entryway}}` is exactly wrapped and
its inner value `entryway` is not returned: the dot of `(?:entry.)?` is not
escaped and stands for any character, so the six code units `entryw` are
taken off and `ay` is left. The pattern has no anchors either: `see {{name}}
here`, with text before and after the delimiters, is not returned unchanged
but gives `name`. For `{{geo.lat}}` and `{{entry.geo.lat}}` the result is
the inner value `geo.lat`, and `{{name}`, which is not closed, is returned
unchanged. -/
theorem stripEntry_strips_more_than_claimed :
    stripEntry (.str (template "entryway")) = .ok "ay" ∧
    stripEntry (.str ("see " ++ template "name" ++ " here")) = .ok "name" ∧
    stripEntry (.str (template "geo.lat")) = .ok "geo.lat" ∧
    stripEntry (.str (template "entry.geo.lat")) = .ok "geo.lat" ∧
    stripEntry (.str "\x7b\x7bname\x7d") = .ok "\x7b\x7bname\x7d" :=
  ⟨rfl, rfl, rfl, rfl, rfl⟩

/-- Cases in which the result of `stripEntry` is known for every text. For
every string `entry`: when it is `{{` + p + `}}` with
p not beginning with the letters `entry`, or `{{entry.` + p + `}}`, the
result of `stripEntry` is p; the same holds when text without an opening
brace precedes the `{{` and text without a closing brace follows the `}}`:
the pattern is searched for, and the text outside the delimiters is dropped.
When `entry` holds no opening brace, or no closing brace, it is returned
unchanged. -/
theorem stripEntry_cases :
    (∀ pre p post : String, '\x7b' ∉ pre.toList → '\x7d' ∉ post.toList →
      ¬ "entry".toList <+: p.toList →
      stripEntry (.str (pre ++ template p ++ post)) = .ok p) ∧
    (∀ pre p post : String, '\x7b' ∉ pre.toList → '\x7d' ∉ post.toList →
      stripEntry (.str (pre ++ template ("entry." ++ p) ++ post)) = .ok p) ∧
    (∀ entry : String, '\x7b' ∉ entry.toList ∨ '\x7d' ∉ entry.toList →
      stripEntry (.str entry) = .ok entry) := by
  refine ⟨fun pre p post hpre hpost hp => ?_, fun pre p post hpre hpost => ?_,
    fun entry h => ?_⟩
  · rw [stripEntry_wrapped pre p post hpre hpost]
    unfold dropNamespace
    rw [afterEntryGroup_of_not_entry p.toList hp]
    rfl
  · rw [stripEntry_wrapped pre _ post hpre hpost]
    have hl : ("entry." ++ p).toList = 'e' :: 'n' :: 't' :: 'r' :: 'y' :: '.' :: p.toList := by
      simp [String.toList, String.data_append]
    have hg : afterEntryGroup ('e' :: 'n' :: 't' :: 'r' :: 'y' :: '.' :: p.toList) =
        some p.toList := rfl
    rw [hl]
    unfold dropNamespace
    rw [hg]
    rfl
  · have hnone : regexMatch entry.toList = none := by
      rcases h with h | h
      · exact regexMatch_of_no_open _ h
      · exact regexMatch_of_no_close _ h
    unfold stripEntry
    simp only
    rw [hnone]

/-- The statement above for `{{geo.lat}}`, `{{entry.geo.lat}}`, both also
inside brace-free text, and the plain text `geo.lat`. -/
theorem stripEntry_cases_example :
    stripEntry (.str ("" ++ template "geo.lat" ++ "")) = .ok "geo.lat" ∧
    stripEntry (.str ("at " ++ template "geo.lat" ++ "!")) = .ok "geo.lat" ∧
    stripEntry (.str ("" ++ template ("entry." ++ "geo.lat") ++ "")) = .ok "geo.lat" ∧
    stripEntry (.str "geo.lat") = .ok "geo.lat" :=
  ⟨stripEntry_cases.1 "" "geo.lat" "" (by decide) (by decide) (by decide),
    stripEntry_cases.1 "at " "geo.lat" "!" (by decide) (by decide) (by decide),
    stripEntry_cases.2.1 "" "geo.lat" "" (by decide) (by decide),
    stripEntry_cases.2.2 "geo.lat" (Or.inl (by decide))⟩

/-! ## C18: the invariant of feed refresh -/

theorem createMarkers_same (JSON_parse : String → Except JSError JSValue) (cfg : MapConfig)
    (st : MapState) (data : JSValue) :
    ∃ added, (createMarkers JSON_parse cfg st data).state.markers = some added ∧
      (createMarkers JSON_parse cfg st data).state.geoObjects = st.geoObjects ++ added := by
  unfold createMarkers
  cases hf : feedItems JSON_parse cfg data with
  | error e => exact ⟨[], by simp⟩
  | ok items =>
    obtain ⟨added, h1, h2⟩ := createMarkersLoop_same cfg items
      { st with markers := some [] } [] rfl
    exact ⟨added, by simpa using h1, by simpa using h2⟩

/-- C18. For every feed-driven config: initialization leaves the fresh entry
(an empty widget, no marker list); in every state reached from there by any
sequence of feed events, each running `clearMarkers` and then
`createMarkers`, the widget's marker collection is the tracked marker list,
marker by marker in the same order (empty while the list is absent); after
each feed event the tracked list is present and is the widget's collection;
and when the event's payload resolves to a list whose surviving items all
derive a marker, the collection holds the markers of that payload and no
other. -/
theorem feed_refresh_invariant (JSON_parse : String → Except JSError JSValue)
    (cfg : MapConfig) :
    (toBoolean (attr cfg.dataEvent) = true → initalizeMap cfg = .ok MapState.fresh) ∧
    (∀ st, Reachable JSON_parse cfg st → st.geoObjects = st.markers.getD []) ∧
    (∀ st data, Reachable JSON_parse cfg st →
      (onFeedEvent JSON_parse cfg st data).state.markers =
        some (onFeedEvent JSON_parse cfg st data).state.geoObjects) ∧
    (∀ st data (path xs : List JSValue) (ms : List Marker), Reachable JSON_parse cfg st →
      JSON_parse (String.mk (toStr (attr cfg.dataRpa))) = .ok (.arr path) →
      descendPath path data = .ok (.arr xs) →
      List.Forall₂ (fun item m => deriveMarker cfg item = .ok m) (xs.filter isObject) ms →
      onFeedEvent JSON_parse cfg st data =
        ⟨{ st with
            geoObjects := numbered st.nextId ms
            markers := some (numbered st.nextId ms)
            nextId := st.nextId + ms.length }, none⟩) := by
  refine ⟨fun h => ?_, fun st h => reachable_tracks JSON_parse cfg st h,
    fun st data h => ?_, fun st data path xs ms h hparse hdata hmarkers => ?_⟩
  · simp [initalizeMap, h]
  · have hgeo := clearMarkers_geoObjects st (reachable_tracks JSON_parse cfg st h)
    obtain ⟨added, h1, h2⟩ := createMarkers_same JSON_parse cfg (clearMarkers st) data
    unfold onFeedEvent
    rw [h1, h2, hgeo, List.nil_append]
  · have hgeo := clearMarkers_geoObjects st (reachable_tracks JSON_parse cfg st h)
    have hitems := feedItems_of_list JSON_parse cfg data path xs hparse hdata
    have hmarker : (clearMarkers st).marker = st.marker := by
      unfold clearMarkers; cases st.markers <;> rfl
    have hnext : (clearMarkers st).nextId = st.nextId := by
      unfold clearMarkers; cases st.markers <;> rfl
    unfold onFeedEvent createMarkers
    rw [hitems]
    simp only
    have hl := createMarkersLoop_append cfg _ ms hmarkers [] (clearMarkers st).geoObjects
      (clearMarkers st).marker [] (clearMarkers st).nextId
    rw [List.append_nil] at hl
    rw [hl]
    simp [createMarkersLoop, hgeo, hmarker, hnext]

/-- C18, witness: `feedConfig`, a feed event with two places and then one
with a third place: the widget holds the marker of the third place only. -/
theorem feed_refresh_invariant_witness :
    initalizeMap feedConfig = .ok MapState.fresh ∧
    (onFeedEvent parseItemsPath feedConfig MapState.fresh
        (payload [place 1 2, place 3 4])).state.geoObjects =
      ((onFeedEvent parseItemsPath feedConfig MapState.fresh
        (payload [place 1 2, place 3 4])).state.markers).getD [] ∧
    onFeedEvent parseItemsPath feedConfig
        (onFeedEvent parseItemsPath feedConfig MapState.fresh
          (payload [place 1 2, place 3 4])).state (payload [place 5 6]) =
      ⟨{ (onFeedEvent parseItemsPath feedConfig MapState.fresh
            (payload [place 1 2, place 3 4])).state with
          geoObjects := numbered 2 [placeMarker 5 6]
          markers := some (numbered 2 [placeMarker 5 6])
          nextId := 2 + 1 }, none⟩ :=
  have h := feed_refresh_invariant parseItemsPath feedConfig
  have hreach : Reachable parseItemsPath feedConfig
      (onFeedEvent parseItemsPath feedConfig MapState.fresh
        (payload [place 1 2, place 3 4])).state :=
    .feed MapState.fresh (payload [place 1 2, place 3 4]) .fresh
  ⟨h.1 rfl, h.2.1 _ hreach,
    h.2.2.2 _ (payload [place 5 6]) [.str "items"] [place 5 6] [placeMarker 5 6] hreach
      rfl rfl (.cons rfl .nil)⟩

/-! ## C19: no falsy result -/

theorem valueAt_of_foldlM_getProp (parts : List String) :
    ∀ (start v : JSValue), parts.foldlM getProp start = .ok v →
      valueAt parts start = some v := by
  induction parts with
  | nil =>
    intro start v h
    have := Except.ok.inj h
    subst this
    rfl
  | cons part parts ih =>
    intro start v h
    simp only [List.foldlM, bind, Except.bind] at h
    unfold valueAt
    cases hp : getProp start part with
    | error e => rw [hp] at h; cases h
    | ok w =>
      rw [hp] at h
      exact ih w v h

theorem toBoolean_orEmpty (v : JSValue) :
    toBoolean (if toBoolean v then v else .obj []) = true := by
  split_ifs with h
  · exact h
  · rfl

/-- C19. For every path and feed item: when `getNamespacedObject` returns,
its result is truthy; the descent has then read every segment, starting at
`data[0]` if that is truthy and at `data` otherwise, and the result is the
value found if it is truthy and an empty record if it is falsy, which is the
case of `undefined`, `null`, `false`, the empty string, 0 and NaN, and of no
other value. -/
theorem getNamespacedObject_never_falsy (parts : List String) (data : JSValue) :
    (∀ r, getNamespacedObject parts data = .ok r →
      toBoolean r = true ∧
      ∃ first v, getProp data "0" = .ok first ∧
        valueAt parts (jsOr first data) = some v ∧
        r = (if toBoolean v then v else .obj [])) ∧
    (∀ first v, getProp data "0" = .ok first → valueAt parts (jsOr first data) = some v →
      getNamespacedObject parts data = .ok (if toBoolean v then v else .obj []) ∧
      (toBoolean v = true → getNamespacedObject parts data = .ok v) ∧
      (toBoolean v = false → getNamespacedObject parts data = .ok (.obj []))) ∧
    (∀ v, toBoolean v = false ↔
      v = .undefined ∨ v = .null ∨ v = .bool false ∨ v = .str "" ∨ v = .num .nan ∨
        ∃ neg exp, v = .num (.dec neg 0 exp)) := by
  refine ⟨fun r h => ?_, fun first v hfirst hv => ?_, fun v => ?_⟩
  · unfold getNamespacedObject at h
    cases hf : getProp data "0" with
    | error e => simp [hf, bind, Except.bind] at h
    | ok first =>
      cases hd : List.foldlM getProp (jsOr first data) parts with
      | error e => simp [hf, hd, bind, Except.bind] at h
      | ok v =>
        simp only [hf, hd, bind, Except.bind, pure, Except.pure] at h
        have hr : r = (if toBoolean v then v else .obj []) := (Except.ok.inj h).symm
        exact ⟨hr ▸ toBoolean_orEmpty v, first, v, rfl,
          valueAt_of_foldlM_getProp parts _ v hd, hr⟩
  · have hfold := foldlM_getProp_of_valueAt _ _ _ hv
    have hres : getNamespacedObject parts data = .ok (if toBoolean v then v else .obj []) := by
      simp only [getNamespacedObject, hfirst, hfold, bind, Except.bind, pure, Except.pure]
      rfl
    refine ⟨hres, fun ht => ?_, fun hf => ?_⟩
    · rw [hres, if_pos ht]
    · rw [hres, hf]
      rfl
  · cases v with
    | undefined => simp [toBoolean]
    | null => simp [toBoolean]
    | bool b => cases b <;> simp [toBoolean]
    | num n =>
      cases n with
      | nan => simp [toBoolean]
      | inf neg => simp [toBoolean, JSNum.isZero]
      | dec neg mant exp =>
        simp only [toBoolean, JSNum.isZero]
        constructor
        · intro h
          have hm : mant = 0 := by simpa using h
          subst hm
          exact Or.inr (Or.inr (Or.inr (Or.inr (Or.inr ⟨neg, exp, rfl⟩))))
        · intro h
          rcases h with h | h | h | h | h | ⟨n, e, h⟩
          · cases h
          · cases h
          · cases h
          · cases h
          · cases h
          · cases h
            rfl
    | str s =>
      obtain ⟨data⟩ := s
      cases data with
      | nil => simp [toBoolean, String.toList]
      | cons c cs =>
        have hne : (String.mk (c :: cs)) ≠ "" := by
          intro h
          have := congrArg String.data h
          simp at this
        simp [toBoolean, String.toList, hne]
    | arr xs => simp [toBoolean]
    | obj fs => simp [toBoolean]

/-- C19, witness: the path `geo.lat` on a place at latitude 0 resolves to an
empty record, on a place at latitude 55 to 55; and `markerLatLong` of
`feedConfig` puts the empty record in place of the latitude 0. -/
theorem getNamespacedObject_never_falsy_witness :
    getNamespacedObject ["geo", "lat"] (place 0 20) = .ok (.obj []) ∧
    getNamespacedObject ["geo", "lat"] (place 55 20) = .ok (.num (.ofNat 55)) ∧
    markerLatLong feedConfig (place 0 20) = .ok (.arr [.obj [], .num (.ofNat 20)]) :=
  ⟨((getNamespacedObject_never_falsy ["geo", "lat"] (place 0 20)).2.1 .undefined
      (.num (.ofNat 0)) rfl rfl).2.2 rfl,
    ((getNamespacedObject_never_falsy ["geo", "lat"] (place 55 20)).2.1 .undefined
      (.num (.ofNat 55)) rfl rfl).2.1 rfl,
    rfl⟩

end YandexMaps
